import Mathlib

/-!
# Fortran interface stubs of PETSc: `include/petsc/private/fortranimpl.h`

A shallow embedding of the statement-like constructs of the header and proofs about them.

Conventions of the embedding.

* A pointer is the address it holds, a natural number; `NULL` is `0`.
* Character memory is a function from addresses to byte values; `a[i]` is `mem (a + i)`.
  The blank character is `32`, the string terminator is `0`.
* `PETSC_FORTRAN_CHARLEN_T` is fixed by the build configuration and not by the header; string
  lengths are natural numbers here.
* A construct that can execute `return` yields a `Flow`: either the stub goes on with its next
  statement or it has returned to the Fortran caller.
* Routines that the header calls but does not define take what they report (status, address)
  as an argument.
-/

namespace FortranImpl

/-! ## Control flow and the heap -/

/-- Control after a construct of the header has run: `next` when the enclosing stub goes on with
the statement that follows, `ret` when the construct executed `return`. -/
inductive Flow (σ : Type) where
  | next (s : σ)
  | ret (s : σ)
deriving DecidableEq, Repr

/-- State in which the construct left the stub. -/
def Flow.state {σ : Type} : Flow σ → σ
  | .next s => s
  | .ret s => s

/-- Whether the construct executed `return`. -/
def Flow.returned {σ : Type} : Flow σ → Bool
  | .next _ => false
  | .ret _ => true

/-- The heap: the byte stored at every address, and the blocks `(address, size in bytes)` handed
out by `PetscMalloc` and not given back yet, most recent first. -/
structure Heap where
  mem : Nat → Nat
  allocs : List (Nat × Nat)

/-- Answer of one allocator call: the status it returns and the address it stores on success. -/
structure MallocResult where
  ierr : Nat
  ptr : Nat
deriving DecidableEq, Repr

/-- Modelled from the spec: `PetscMalloc` (and `PetscMalloc1(m,&p)`, which is `PetscMalloc` of
`m * sizeof(*p)` bytes) is defined outside this header. The spec says an allocation either yields a
block of exactly the requested size or fails with `AllocationFailure`. The answer `r` of the
allocator is an argument; on failure no block is recorded and the target pointer keeps its value.
Returns the status, the new value of the target pointer and the heap. -/
def PetscMalloc (r : MallocResult) (bytes : Nat) (target : Nat) (h : Heap) : Nat × Nat × Heap :=
  if r.ierr ≠ 0 then (r.ierr, target, h)
  else (0, r.ptr, { h with allocs := (r.ptr, bytes) :: h.allocs })

/-- Whether one of the bytes `t[0], ..., t[i]` is the terminator. -/
def nulUpTo (mem : Nat → Nat) (t i : Nat) : Bool :=
  (List.range (i + 1)).any (fun j => mem (t + j) == 0)

/-- Memory after a C `strncpy`-style copy from `t` into the `n` bytes at `s`: bytes `0 .. n-2` of
`s` receive the bytes of `t` up to its first NUL and NUL from there on, byte `n-1` receives the
terminator; the source is read before the copy. -/
def strncpyMem (mem : Nat → Nat) (s t n : Nat) : Nat → Nat :=
  fun x =>
    if s ≤ x ∧ x < s + n then
      (if x + 1 = s + n then 0
       else if nulUpTo mem t (x - s) then 0
       else mem (t + (x - s)))
    else mem x

/-- Modelled from the spec: `PetscStrncpy(s,t,n)` is defined outside this header. The spec says
the copy step "copies the trimmed content, appends a terminator" and may fail. The bytes stored
are those of `strncpyMem`. The status the routine reports is the argument `status`; on failure
nothing is stored. -/
def PetscStrncpy (status : Nat) (s t n : Nat) (h : Heap) : Nat × Heap :=
  if status ≠ 0 then (status, h)
  else (0, { h with mem := strncpyMem h.mem s t n })

/-- The `len` bytes stored from address `p` on. -/
def bytesAt (mem : Nat → Nat) (p len : Nat) : List Nat :=
  (List.range len).map (fun i => mem (p + i))

/-- Memory that holds the bytes `bs` from address `base` on and NUL everywhere else. -/
def memOf (base : Nat) (bs : List Nat) : Nat → Nat :=
  fun x => if base ≤ x then bs.getD (x - base) 0 else 0

/-- The character codes of a string literal, one byte each. -/
def asciiBytes (s : String) : List Nat := s.toList.map Char.toNat

/-! ## `FIXCHAR` -/

/-- Variables of a stub around `FIXCHAR(a,n,b)`: the Fortran buffer `a`, its declared length `n`,
the C string `b`, the status `*ierr`, and the heap. -/
structure CharStub where
  a : Nat
  n : Nat
  b : Nat
  ierr : Nat
  heap : Heap

/-- The loop `while ((n > 0) && (a[n-1] == ' ')) n--;` of `FIXCHAR`: the value of `n` when the
loop is left. -/
def trimLoop (mem : Nat → Nat) (a : Nat) : Nat → Nat
  | 0 => 0
  | n + 1 => if mem (a + n) = 32 then trimLoop mem a n else n + 1

/-- A stub about to run `FIXCHAR(a,n,b)` on a Fortran buffer at address `a` that holds the bytes
`bs`, with declared length `n`, `b` and `*ierr` zero and nothing allocated. -/
def charStubOf (a : Nat) (bs : List Nat) (n : Nat) : CharStub :=
  { a := a, n := n, b := 0, ierr := 0, heap := { mem := memOf a bs, allocs := [] } }

/-- The construct `FIXCHAR(a,n,b)`. `PETSC_NULL_CHARACTER_Fortran` is the value of the global of
that name, `r` the answer of the allocator to `PetscMalloc1(n+1,&b)` (a request for
`(n+1) * sizeof(char)` bytes) and `cpy` the status of `PetscStrncpy(b,a,n+1)`. -/
def FIXCHAR (PETSC_NULL_CHARACTER_Fortran : Nat) (r : MallocResult) (cpy : Nat) (s : CharStub) :
    Flow CharStub :=
  if s.a = PETSC_NULL_CHARACTER_Fortran then
    Flow.next { s with a := 0, b := 0 }
  else
    let n := trimLoop s.heap.mem s.a s.n
    let m := PetscMalloc r ((n + 1) * 1) s.b s.heap
    let s1 : CharStub := { s with n := n, b := m.2.1, ierr := m.1, heap := m.2.2 }
    if s1.ierr ≠ 0 then Flow.ret s1
    else
      let c := PetscStrncpy cpy s1.b s1.a (n + 1) s1.heap
      let s2 : CharStub := { s1 with ierr := c.1, heap := c.2 }
      if s2.ierr ≠ 0 then Flow.ret s2 else Flow.next s2

/-! ## `FIXRETURNCHAR` -/

/-- The loop `for (__i=0; __i<n && a[__i] != 0; __i++) {}` of `FIXRETURNCHAR`:
`nulLoop mem a i r` is the value of `__i` when the loop, running with `__i = i` and
`n = i + r`, is left. -/
def nulLoop (mem : Nat → Nat) (a : Nat) : Nat → Nat → Nat
  | i, 0 => i
  | i, r + 1 => if mem (a + i) ≠ 0 then nulLoop mem a (i + 1) r else i

/-- The loop `for (; __i<n; __i++) a[__i] = ' ';` of `FIXRETURNCHAR`: `padLoop mem a i r` is the
memory when the loop, running with `__i = i` and `n = i + r`, is left. -/
def padLoop (mem : Nat → Nat) (a : Nat) : Nat → Nat → (Nat → Nat)
  | _, 0 => mem
  | i, r + 1 => padLoop (Function.update mem (a + i) 32) a (i + 1) r

/-- The construct `FIXRETURNCHAR(flg,a,n)`: the memory it leaves. -/
def FIXRETURNCHAR (flg : Bool) (mem : Nat → Nat) (a n : Nat) : Nat → Nat :=
  if flg then
    let i := nulLoop mem a 0 n
    padLoop mem a i (n - i)
  else mem

/-! ## Null addresses and the `CHKFORTRANNULL...` checks -/

/-- The globals `PETSC_NULL_..._Fortran`: the addresses of the Fortran null constants. -/
structure FortranNulls where
  PETSC_NULL_CHARACTER_Fortran : Nat
  PETSC_NULL_INTEGER_Fortran : Nat
  PETSC_NULL_SCALAR_Fortran : Nat
  PETSC_NULL_DOUBLE_Fortran : Nat
  PETSC_NULL_REAL_Fortran : Nat
  PETSC_NULL_BOOL_Fortran : Nat
  PETSC_NULL_FUNCTION_Fortran : Nat
deriving DecidableEq, Repr

def FORTRANNULLINTEGER (G : FortranNulls) (a : Nat) : Bool := a == G.PETSC_NULL_INTEGER_Fortran

def FORTRANNULLSCALAR (G : FortranNulls) (a : Nat) : Bool := a == G.PETSC_NULL_SCALAR_Fortran

def FORTRANNULLDOUBLE (G : FortranNulls) (a : Nat) : Bool := a == G.PETSC_NULL_DOUBLE_Fortran

def FORTRANNULLREAL (G : FortranNulls) (a : Nat) : Bool := a == G.PETSC_NULL_REAL_Fortran

def FORTRANNULLBOOL (G : FortranNulls) (a : Nat) : Bool := a == G.PETSC_NULL_BOOL_Fortran

def FORTRANNULLCHARACTER (G : FortranNulls) (a : Nat) : Bool :=
  a == G.PETSC_NULL_CHARACTER_Fortran

def FORTRANNULLFUNCTION (G : FortranNulls) (a : Nat) : Bool := a == G.PETSC_NULL_FUNCTION_Fortran

/-- The test `*(void**)a == (void*)0`; `load p` is the pointer stored at address `p`. -/
def FORTRANNULLOBJECT (load : Nat → Nat) (a : Nat) : Bool := load a == 0

/-- Variables of a stub around a `CHKFORTRANNULL...(a)` check: the argument `a`, the status
`*ierr`, and the messages handed to `PetscError`, most recent first. -/
structure ArgStub where
  a : Nat
  ierr : Nat
  errors : List String
deriving DecidableEq, Repr

/-- The error branch shared by the checks: `PetscError(..., msg); *ierr = 1; return;`. -/
def chkFail (msg : String) (s : ArgStub) : Flow ArgStub :=
  Flow.ret { s with errors := msg :: s.errors, ierr := 1 }

def CHKFORTRANNULLINTEGER (G : FortranNulls) (s : ArgStub) : Flow ArgStub :=
  if FORTRANNULLDOUBLE G s.a || FORTRANNULLSCALAR G s.a || FORTRANNULLREAL G s.a
      || FORTRANNULLBOOL G s.a || FORTRANNULLFUNCTION G s.a || FORTRANNULLCHARACTER G s.a then
    chkFail "Use PETSC_NULL_INTEGER" s
  else if FORTRANNULLINTEGER G s.a then Flow.next { s with a := 0 }
  else Flow.next s

def CHKFORTRANNULLSCALAR (G : FortranNulls) (s : ArgStub) : Flow ArgStub :=
  if FORTRANNULLINTEGER G s.a || FORTRANNULLDOUBLE G s.a || FORTRANNULLREAL G s.a
      || FORTRANNULLBOOL G s.a || FORTRANNULLFUNCTION G s.a || FORTRANNULLCHARACTER G s.a then
    chkFail "Use PETSC_NULL_SCALAR" s
  else if FORTRANNULLSCALAR G s.a then Flow.next { s with a := 0 }
  else Flow.next s

def CHKFORTRANNULLDOUBLE (G : FortranNulls) (s : ArgStub) : Flow ArgStub :=
  if FORTRANNULLINTEGER G s.a || FORTRANNULLSCALAR G s.a || FORTRANNULLREAL G s.a
      || FORTRANNULLBOOL G s.a || FORTRANNULLFUNCTION G s.a || FORTRANNULLCHARACTER G s.a then
    chkFail "Use PETSC_NULL_DOUBLE" s
  else if FORTRANNULLDOUBLE G s.a then Flow.next { s with a := 0 }
  else Flow.next s

def CHKFORTRANNULLREAL (G : FortranNulls) (s : ArgStub) : Flow ArgStub :=
  if FORTRANNULLINTEGER G s.a || FORTRANNULLDOUBLE G s.a || FORTRANNULLSCALAR G s.a
      || FORTRANNULLBOOL G s.a || FORTRANNULLFUNCTION G s.a || FORTRANNULLCHARACTER G s.a then
    chkFail "Use PETSC_NULL_REAL" s
  else if FORTRANNULLREAL G s.a then Flow.next { s with a := 0 }
  else Flow.next s

def CHKFORTRANNULLOBJECT (G : FortranNulls) (load : Nat → Nat) (s : ArgStub) : Flow ArgStub :=
  if FORTRANNULLINTEGER G s.a || FORTRANNULLDOUBLE G s.a || FORTRANNULLSCALAR G s.a
      || FORTRANNULLREAL G s.a || FORTRANNULLBOOL G s.a || FORTRANNULLFUNCTION G s.a
      || FORTRANNULLCHARACTER G s.a then
    chkFail "Use PETSC_NULL_XXX where XXX is the name of a particular object class" s
  else if load s.a = 0 then Flow.next { s with a := 0 }
  else Flow.next s

def CHKFORTRANNULLBOOL (G : FortranNulls) (s : ArgStub) : Flow ArgStub :=
  if FORTRANNULLSCALAR G s.a || FORTRANNULLINTEGER G s.a || FORTRANNULLDOUBLE G s.a
      || FORTRANNULLSCALAR G s.a || FORTRANNULLREAL G s.a || FORTRANNULLFUNCTION G s.a
      || FORTRANNULLCHARACTER G s.a then
    chkFail "Use PETSC_NULL_BOOL" s
  else if FORTRANNULLBOOL G s.a then Flow.next { s with a := 0 }
  else Flow.next s

def CHKFORTRANNULLFUNCTION (G : FortranNulls) (load : Nat → Nat) (s : ArgStub) : Flow ArgStub :=
  if FORTRANNULLOBJECT load s.a || FORTRANNULLSCALAR G s.a || FORTRANNULLDOUBLE G s.a
      || FORTRANNULLREAL G s.a || FORTRANNULLINTEGER G s.a || FORTRANNULLBOOL G s.a
      || FORTRANNULLCHARACTER G s.a then
    chkFail "Use PETSC_NULL_FUNCTION" s
  else if FORTRANNULLFUNCTION G s.a then Flow.next { s with a := 0 }
  else Flow.next s

/-- The primitive categories that have a null marker. -/
inductive Category where
  | Integer | Scalar | Double | Real | Boolean | Character | Function | Object
deriving DecidableEq, Repr

/-- Whether `a` passes the `FORTRANNULL...` test of category `c`. -/
def isNullOf (G : FortranNulls) (load : Nat → Nat) (c : Category) (a : Nat) : Bool :=
  match c with
  | .Integer => FORTRANNULLINTEGER G a
  | .Scalar => FORTRANNULLSCALAR G a
  | .Double => FORTRANNULLDOUBLE G a
  | .Real => FORTRANNULLREAL G a
  | .Boolean => FORTRANNULLBOOL G a
  | .Character => FORTRANNULLCHARACTER G a
  | .Function => FORTRANNULLFUNCTION G a
  | .Object => FORTRANNULLOBJECT load a

/-- The seven checks of the header. -/
inductive Check where
  | INTEGER | SCALAR | DOUBLE | REAL | OBJECT | BOOL | FUNCTION
deriving DecidableEq, Repr

/-- The category a check is for. -/
def Check.own : Check → Category
  | .INTEGER => .Integer
  | .SCALAR => .Scalar
  | .DOUBLE => .Double
  | .REAL => .Real
  | .OBJECT => .Object
  | .BOOL => .Boolean
  | .FUNCTION => .Function

/-- The message a check hands to `PetscError`. -/
def Check.message : Check → String
  | .INTEGER => "Use PETSC_NULL_INTEGER"
  | .SCALAR => "Use PETSC_NULL_SCALAR"
  | .DOUBLE => "Use PETSC_NULL_DOUBLE"
  | .REAL => "Use PETSC_NULL_REAL"
  | .OBJECT => "Use PETSC_NULL_XXX where XXX is the name of a particular object class"
  | .BOOL => "Use PETSC_NULL_BOOL"
  | .FUNCTION => "Use PETSC_NULL_FUNCTION"

/-- Runs the check `CHKFORTRANNULL<k>(a)`. -/
def Check.run (G : FortranNulls) (load : Nat → Nat) (k : Check) (s : ArgStub) : Flow ArgStub :=
  match k with
  | .INTEGER => CHKFORTRANNULLINTEGER G s
  | .SCALAR => CHKFORTRANNULLSCALAR G s
  | .DOUBLE => CHKFORTRANNULLDOUBLE G s
  | .REAL => CHKFORTRANNULLREAL G s
  | .OBJECT => CHKFORTRANNULLOBJECT G load s
  | .BOOL => CHKFORTRANNULLBOOL G s
  | .FUNCTION => CHKFORTRANNULLFUNCTION G load s

/-- The seven null addresses, in the order of the categories. -/
def FortranNulls.addresses (G : FortranNulls) : List Nat :=
  [G.PETSC_NULL_INTEGER_Fortran, G.PETSC_NULL_SCALAR_Fortran, G.PETSC_NULL_DOUBLE_Fortran,
   G.PETSC_NULL_REAL_Fortran, G.PETSC_NULL_BOOL_Fortran, G.PETSC_NULL_CHARACTER_Fortran,
   G.PETSC_NULL_FUNCTION_Fortran]

/-- Seven distinct null addresses, for the examples. -/
def exampleNulls : FortranNulls :=
  { PETSC_NULL_CHARACTER_Fortran := 106, PETSC_NULL_INTEGER_Fortran := 101,
    PETSC_NULL_SCALAR_Fortran := 102, PETSC_NULL_DOUBLE_Fortran := 103,
    PETSC_NULL_REAL_Fortran := 104, PETSC_NULL_BOOL_Fortran := 105,
    PETSC_NULL_FUNCTION_Fortran := 107 }

/-- Pointer memory for the examples: the cell at address 200 holds `NULL`, every other cell a
pointer that is not `NULL`. -/
def exampleLoad : Nat → Nat := fun p => if p = 200 then 0 else 1

/-! ## Object handles across destroy -/

/-- Variables of a Fortran destroy stub `xxxdestroy_(a,ierr)`: the handle `*a` stored in the
Fortran variable (`0` is `NULL`, `-2` marks a destroyed object, anything else is the address of a
live object), the status `*ierr`, and the objects the library destroyed so far, most recent
first. -/
structure HandleStub where
  slot : Int
  ierr : Nat
  destroyed : List Int
deriving DecidableEq, Repr

/-- The construct `PETSC_FORTRAN_OBJECT_F_DESTROYED_TO_C_NULL(a)`:
`if (*((void**)(a)) == (void*)-2) *(a) = NULL;`. -/
def PETSC_FORTRAN_OBJECT_F_DESTROYED_TO_C_NULL (s : HandleStub) : HandleStub :=
  if s.slot = -2 then { s with slot := 0 } else s

/-- The construct `PETSC_FORTRAN_OBJECT_C_NULL_TO_F_DESTROYED(a)`: `*((void**)(a)) = (void*)-2;`. -/
def PETSC_FORTRAN_OBJECT_C_NULL_TO_F_DESTROYED (s : HandleStub) : HandleStub :=
  { s with slot := -2 }

/-- Modelled from the spec: the library routine `XxxDestroy(a)` behind a destroy stub is defined
outside this header. It does nothing and succeeds on a `NULL` handle; on a live handle it destroys
the object and stores `NULL` in the slot. `status` is what the library reports when it is asked to
destroy a live object. Neither the header nor the spec says what a failing destroy leaves in the
slot; here it leaves the slot as it is, and no statement below rests on that choice. Returns the
status and the state. -/
def XxxDestroy (status : Nat) (s : HandleStub) : Nat × HandleStub :=
  if s.slot = 0 then (0, s)
  else if status ≠ 0 then (status, s)
  else (0, { s with slot := 0, destroyed := s.slot :: s.destroyed })

/-- Modelled from the spec: a Fortran destroy stub, which is not part of this header, built from
the two constructs of the header as their comments direct:
`PETSC_FORTRAN_OBJECT_F_DESTROYED_TO_C_NULL(a); *ierr = XxxDestroy(a); if (*ierr) return;
PETSC_FORTRAN_OBJECT_C_NULL_TO_F_DESTROYED(a);`. -/
def xxxDestroyStub (status : Nat) (s : HandleStub) : HandleStub :=
  let s1 := PETSC_FORTRAN_OBJECT_F_DESTROYED_TO_C_NULL s
  let d := XxxDestroy status s1
  let s2 : HandleStub := { d.2 with ierr := d.1 }
  if s2.ierr ≠ 0 then s2 else PETSC_FORTRAN_OBJECT_C_NULL_TO_F_DESTROYED s2

/-- Successive calls of the destroy stub on one slot; `statuses` lists, call by call, what the
library would report when asked to destroy a live object. -/
def destroyCalls (statuses : List Nat) (s : HandleStub) : HandleStub :=
  statuses.foldl (fun st e => xxxDestroyStub e st) s

/-! ## Default viewers -/

def PETSC_VIEWER_DRAW_WORLD_FORTRAN : Nat := 4

def PETSC_VIEWER_DRAW_SELF_FORTRAN : Nat := 5

def PETSC_VIEWER_SOCKET_WORLD_FORTRAN : Nat := 6

def PETSC_VIEWER_SOCKET_SELF_FORTRAN : Nat := 7

def PETSC_VIEWER_STDOUT_WORLD_FORTRAN : Nat := 8

def PETSC_VIEWER_STDOUT_SELF_FORTRAN : Nat := 9

def PETSC_VIEWER_STDERR_WORLD_FORTRAN : Nat := 10

def PETSC_VIEWER_STDERR_SELF_FORTRAN : Nat := 11

def PETSC_VIEWER_BINARY_WORLD_FORTRAN : Nat := 12

def PETSC_VIEWER_BINARY_SELF_FORTRAN : Nat := 13

def PETSC_VIEWER_MATLAB_WORLD_FORTRAN : Nat := 14

def PETSC_VIEWER_MATLAB_SELF_FORTRAN : Nat := 15

/-- The shared viewer handles `PETSC_VIEWER_..._WORLD` and `PETSC_VIEWER_..._SELF` of the library,
which the header uses and does not define. -/
structure Viewers where
  PETSC_VIEWER_DRAW_WORLD : Nat
  PETSC_VIEWER_DRAW_SELF : Nat
  PETSC_VIEWER_SOCKET_WORLD : Nat
  PETSC_VIEWER_SOCKET_SELF : Nat
  PETSC_VIEWER_STDOUT_WORLD : Nat
  PETSC_VIEWER_STDOUT_SELF : Nat
  PETSC_VIEWER_STDERR_WORLD : Nat
  PETSC_VIEWER_STDERR_SELF : Nat
  PETSC_VIEWER_BINARY_WORLD : Nat
  PETSC_VIEWER_BINARY_SELF : Nat
deriving DecidableEq, Repr

/-- Ten distinct viewer handles, for the examples. -/
def exampleViewers : Viewers :=
  { PETSC_VIEWER_DRAW_WORLD := 1004, PETSC_VIEWER_DRAW_SELF := 1005,
    PETSC_VIEWER_SOCKET_WORLD := 1006, PETSC_VIEWER_SOCKET_SELF := 1007,
    PETSC_VIEWER_STDOUT_WORLD := 1008, PETSC_VIEWER_STDOUT_SELF := 1009,
    PETSC_VIEWER_STDERR_WORLD := 1010, PETSC_VIEWER_STDERR_SELF := 1011,
    PETSC_VIEWER_BINARY_WORLD := 1012, PETSC_VIEWER_BINARY_SELF := 1013 }

/-- The branches `PetscPatchDefaultViewers_Fortran_Socket(vin,v)` adds to the chain: with
`PETSC_USE_SOCKET_VIEWER` defined the two socket codes, otherwise nothing. `x` is the value
`*(PetscFortranAddr*)vin`; the result is the value assigned to `v`, if a branch is taken. -/
def PetscPatchDefaultViewers_Fortran_Socket (PETSC_USE_SOCKET_VIEWER : Bool) (V : Viewers)
    (x : Nat) : Option Nat :=
  if PETSC_USE_SOCKET_VIEWER then
    if x = PETSC_VIEWER_SOCKET_WORLD_FORTRAN then some V.PETSC_VIEWER_SOCKET_WORLD
    else if x = PETSC_VIEWER_SOCKET_SELF_FORTRAN then some V.PETSC_VIEWER_SOCKET_SELF
    else none
  else none

/-- The construct `PetscPatchDefaultViewers_Fortran(vin,v)`: the value assigned to `v`, where `x`
is the value stored in `*vin`. -/
def PetscPatchDefaultViewers_Fortran (PETSC_USE_SOCKET_VIEWER : Bool) (V : Viewers) (x : Nat) :
    Nat :=
  if x = PETSC_VIEWER_DRAW_WORLD_FORTRAN then V.PETSC_VIEWER_DRAW_WORLD
  else if x = PETSC_VIEWER_DRAW_SELF_FORTRAN then V.PETSC_VIEWER_DRAW_SELF
  else if x = PETSC_VIEWER_STDOUT_WORLD_FORTRAN then V.PETSC_VIEWER_STDOUT_WORLD
  else if x = PETSC_VIEWER_STDOUT_SELF_FORTRAN then V.PETSC_VIEWER_STDOUT_SELF
  else if x = PETSC_VIEWER_STDERR_WORLD_FORTRAN then V.PETSC_VIEWER_STDERR_WORLD
  else if x = PETSC_VIEWER_STDERR_SELF_FORTRAN then V.PETSC_VIEWER_STDERR_SELF
  else if x = PETSC_VIEWER_BINARY_WORLD_FORTRAN then V.PETSC_VIEWER_BINARY_WORLD
  else if x = PETSC_VIEWER_BINARY_SELF_FORTRAN then V.PETSC_VIEWER_BINARY_SELF
  else if x = PETSC_VIEWER_MATLAB_WORLD_FORTRAN then V.PETSC_VIEWER_BINARY_WORLD
  else if x = PETSC_VIEWER_MATLAB_SELF_FORTRAN then V.PETSC_VIEWER_BINARY_SELF
  else match PetscPatchDefaultViewers_Fortran_Socket PETSC_USE_SOCKET_VIEWER V x with
    | some v => v
    | none => x

/-- The codes for which `PetscPatchDefaultViewers_Fortran` has a branch. -/
def aliasCodes (PETSC_USE_SOCKET_VIEWER : Bool) : List Nat :=
  if PETSC_USE_SOCKET_VIEWER then [4, 5, 6, 7, 8, 9, 10, 11, 12, 13, 14, 15]
  else [4, 5, 8, 9, 10, 11, 12, 13, 14, 15]

/-! ## `PetscObjectAllocateFortranPointers` -/

/-- The two fields of `struct _p_PetscObject` the header touches. -/
structure PetscObject where
  fortran_func_pointers : Nat
  num_fortran_func_pointers : Nat
deriving DecidableEq, Repr

/-- Variables of a stub around `PetscObjectAllocateFortranPointers(obj,N)`: the object, the status
`*ierr`, and the heap. -/
structure ObjStub where
  obj : PetscObject
  ierr : Nat
  heap : Heap

/-- Memory with the `bytes` bytes from address `p` on set to zero. -/
def zeroMem (mem : Nat → Nat) (p bytes : Nat) : Nat → Nat :=
  fun x => if p ≤ x ∧ x < p + bytes then 0 else mem x

/-- Modelled from the spec: `PetscMemzero(p,bytes)` is defined outside this header. The spec says
the slots are zero-initialized. The status the routine reports is the argument `status`; on failure
nothing is stored. -/
def PetscMemzero (status : Nat) (p bytes : Nat) (h : Heap) : Nat × Heap :=
  if status ≠ 0 then (status, h)
  else (0, { h with mem := zeroMem h.mem p bytes })

/-- The construct `PetscObjectAllocateFortranPointers(obj,N)`. `fpSize` is
`sizeof(void(*)(void))`, `r` the answer of the allocator to `PetscMalloc` and `zst` the status of
`PetscMemzero`. -/
def PetscObjectAllocateFortranPointers (fpSize : Nat) (r : MallocResult) (zst : Nat) (N : Nat)
    (s : ObjStub) : Flow ObjStub :=
  if s.obj.fortran_func_pointers = 0 then
    let m := PetscMalloc r (N * fpSize) s.obj.fortran_func_pointers s.heap
    let s1 : ObjStub :=
      { obj := { s.obj with fortran_func_pointers := m.2.1 }, ierr := m.1, heap := m.2.2 }
    if s1.ierr ≠ 0 then Flow.ret s1
    else
      let z := PetscMemzero zst s1.obj.fortran_func_pointers (N * fpSize) s1.heap
      let s2 : ObjStub := { s1 with ierr := z.1, heap := z.2 }
      if s2.ierr ≠ 0 then Flow.ret s2
      else Flow.next { s2 with obj := { s2.obj with num_fortran_func_pointers := N } }
  else Flow.next s

/-- A stub about to run `PetscObjectAllocateFortranPointers` on an object that has no table yet:
both fields zero, `*ierr` zero, every byte of memory `255`, nothing allocated. -/
def freshObjStub : ObjStub :=
  { obj := { fortran_func_pointers := 0, num_fortran_func_pointers := 0 }, ierr := 0,
    heap := { mem := fun _ => 255, allocs := [] } }

/-- One later use of `PetscObjectAllocateFortranPointers`: the slot count asked for, the answer
the allocator would give and the status `PetscMemzero` would report. -/
structure AllocCall where
  N : Nat
  r : MallocResult
  zst : Nat
deriving DecidableEq, Repr

/-- Successive uses of `PetscObjectAllocateFortranPointers` on one object, each in a stub of its
own: the state the last one leaves. -/
def allocCalls (fpSize : Nat) (calls : List AllocCall) (s : ObjStub) : ObjStub :=
  calls.foldl (fun st c => (PetscObjectAllocateFortranPointers fpSize c.r c.zst c.N st).state) s

/-! ## `FREECHAR` and the reads of the trimming loop -/

/-- Modelled from the spec: `PetscFree(p)` is defined outside this header. The spec says release
frees the owned copy. The block that starts at address `p` leaves the list of allocated blocks; a
pointer that starts no block frees nothing. The status the routine reports is the argument
`status`; on failure nothing is freed. -/
def PetscFree (status : Nat) (p : Nat) (h : Heap) : Nat × Heap :=
  if status ≠ 0 then (status, h)
  else (0, { h with allocs := h.allocs.eraseP (fun blk => blk.1 == p) })

/-- The construct `FREECHAR(a,b)`: `if (a != b) *ierr = PetscFree(b);`. `fr` is the status of
`PetscFree`. -/
def FREECHAR (fr : Nat) (s : CharStub) : CharStub :=
  if s.a ≠ s.b then
    let f := PetscFree fr s.b s.heap
    { s with ierr := f.1, heap := f.2 }
  else s

/-- Whether `FREECHAR(a,b)` calls `PetscFree`: the test `a != b`. -/
def FREECHAR_frees (s : CharStub) : Bool := s.a != s.b

/-- The indices `n-1` at which the loop `while ((n > 0) && (a[n-1] == ' ')) n--;` of `FIXCHAR`
reads `a`, in the order of the reads, as integers: the test `a[n-1] == ' '` is evaluated only
after `n > 0` has held. -/
def trimLoopReads (mem : Nat → Nat) (a : Nat) : Nat → List Int
  | 0 => []
  | n + 1 => (((n + 1 : Nat) : Int) - 1) :: (if mem (a + n) = 32 then trimLoopReads mem a n else [])

/-! ## `FIXRETURNCHAR` inside a stub -/

/-- Variables of a stub around `FIXRETURNCHAR(flg,a,n)`: the Fortran buffer `a`, its capacity `n`,
the status `*ierr`, and character memory. -/
structure ReturnStub where
  a : Nat
  n : Nat
  ierr : Nat
  mem : Nat → Nat

/-- The construct `FIXRETURNCHAR(flg,a,n)` on the variables of the stub: it assigns to its own
counter `__i` and to bytes `a[__i]` only. -/
def FIXRETURNCHAR_stub (flg : Bool) (s : ReturnStub) : ReturnStub :=
  { s with mem := FIXRETURNCHAR flg s.mem s.a s.n }

/-! ## The exclusion lists of the checks -/

/-- The `FORTRANNULL...` tests in the first condition of `CHKFORTRANNULL<k>`, in the order the
header writes them. -/
def Check.tested : Check → List Category
  | .INTEGER => [.Double, .Scalar, .Real, .Boolean, .Function, .Character]
  | .SCALAR => [.Integer, .Double, .Real, .Boolean, .Function, .Character]
  | .DOUBLE => [.Integer, .Scalar, .Real, .Boolean, .Function, .Character]
  | .REAL => [.Integer, .Double, .Scalar, .Boolean, .Function, .Character]
  | .OBJECT => [.Integer, .Double, .Scalar, .Real, .Boolean, .Function, .Character]
  | .BOOL => [.Scalar, .Integer, .Double, .Scalar, .Real, .Function, .Character]
  | .FUNCTION => [.Object, .Scalar, .Double, .Real, .Integer, .Boolean, .Character]

/-! ## Callback dispatch -/

/-- The callback classes `PETSC_FORTRAN_CALLBACK_CLASS` and `PETSC_FORTRAN_CALLBACK_SUBTYPE`,
constants of the library the header uses and does not define. -/
inductive PetscFortranCallbackType where
  | PETSC_FORTRAN_CALLBACK_CLASS
  | PETSC_FORTRAN_CALLBACK_SUBTYPE
deriving DecidableEq, Repr

/-- Answer of `PetscObjectGetFortranCallback(obj,cbclass,cid,&func,&_ctx)`, a routine the header
calls and does not define: the status it returns and what it stores in `func` and `_ctx`. -/
structure CallbackLookup where
  ierr : Nat
  func : Nat
  ctx : Nat
deriving DecidableEq, Repr

/-- One execution of `(*func)args`: the function called, the arguments, and the value of
`_ctx`, which `args` may pass along. -/
structure Invocation (α : Type) where
  func : Nat
  args : α
  ctx : Nat
deriving DecidableEq, Repr

/-- Modelled from the spec: `CHKERRQ(ierr)` is defined outside this header. The spec says a
status is propagated to the caller: with a status that is not zero the enclosing function returns
that status (`some`), with zero it goes on (`none`). -/
def CHKERRQ (ierr : Nat) : Option Nat :=
  if ierr ≠ 0 then some ierr else none

/-- The function body `PetscObjectUseFortranCallback_Private(obj,cid,types,args,cbclass)`: the
status it returns and the callbacks invoked, most recent first. `get` is
`PetscObjectGetFortranCallback`; `call f args ctx` is the value the local `ierr` holds after
`(*f)args;`, the Fortran routine reporting its status through the `&ierr` that `args` carries. -/
def PetscObjectUseFortranCallback_Private {α : Type}
    (get : Nat → PetscFortranCallbackType → Nat → CallbackLookup) (call : Nat → α → Nat → Nat)
    (obj cid : Nat) (args : α) (cbclass : PetscFortranCallbackType)
    (invoked : List (Invocation α)) : Nat × List (Invocation α) :=
  let lk := get obj cbclass cid
  match CHKERRQ lk.ierr with
  | some e => (e, invoked)
  | none =>
    if lk.func ≠ 0 then
      let ierr := call lk.func args lk.ctx
      match CHKERRQ ierr with
      | some e => (e, { func := lk.func, args := args, ctx := lk.ctx } :: invoked)
      | none => (0, { func := lk.func, args := args, ctx := lk.ctx } :: invoked)
    else (0, invoked)

/-- The function body `PetscObjectUseFortranCallback(obj,cid,types,args)`. -/
def PetscObjectUseFortranCallback {α : Type}
    (get : Nat → PetscFortranCallbackType → Nat → CallbackLookup) (call : Nat → α → Nat → Nat)
    (obj cid : Nat) (args : α) (invoked : List (Invocation α)) : Nat × List (Invocation α) :=
  PetscObjectUseFortranCallback_Private get call obj cid args
    PetscFortranCallbackType.PETSC_FORTRAN_CALLBACK_CLASS invoked

/-- The function body `PetscObjectUseFortranCallbackSubType(obj,cid,types,args)`. -/
def PetscObjectUseFortranCallbackSubType {α : Type}
    (get : Nat → PetscFortranCallbackType → Nat → CallbackLookup) (call : Nat → α → Nat → Nat)
    (obj cid : Nat) (args : α) (invoked : List (Invocation α)) : Nat × List (Invocation α) :=
  PetscObjectUseFortranCallback_Private get call obj cid args
    PetscFortranCallbackType.PETSC_FORTRAN_CALLBACK_SUBTYPE invoked

/-- A table of callbacks for the examples: on object 1, class callback 3 is the function at
address 700 with context 70, subtype callback 3 is not set, and the lookup of any other id fails
with status 56. -/
def exampleGet (obj : Nat) (cbclass : PetscFortranCallbackType) (cid : Nat) : CallbackLookup :=
  if obj = 1 ∧ cid = 3 then
    match cbclass with
    | .PETSC_FORTRAN_CALLBACK_CLASS => { ierr := 0, func := 700, ctx := 70 }
    | .PETSC_FORTRAN_CALLBACK_SUBTYPE => { ierr := 0, func := 0, ctx := 0 }
  else { ierr := 56, func := 0, ctx := 0 }

/-- A callback for the examples: on the argument 0 it reports success, on any other argument the
sum of the argument and the context. -/
def exampleCall (_f : Nat) (args : Nat) (ctx : Nat) : Nat := if args = 0 then 0 else args + ctx

/-! ## Lemmas on the trimming loop -/

theorem trimLoop_le (mem : Nat → Nat) (a n : Nat) : trimLoop mem a n ≤ n := by
  induction n with
  | zero => simp [trimLoop]
  | succ k ih =>
    unfold trimLoop
    split
    · omega
    · exact Nat.le_refl _

theorem trimLoop_last (mem : Nat → Nat) (a n : Nat) :
    trimLoop mem a n = 0 ∨ mem (a + (trimLoop mem a n - 1)) ≠ 32 := by
  induction n with
  | zero => simp [trimLoop]
  | succ k ih =>
    unfold trimLoop
    split
    · exact ih
    · right; simpa using ‹¬ mem (a + k) = 32›

theorem trimLoop_blank (mem : Nat → Nat) (a n : Nat) :
    ∀ i, trimLoop mem a n ≤ i → i < n → mem (a + i) = 32 := by
  induction n with
  | zero => intro i _ h; omega
  | succ k ih =>
    intro i h1 h2
    unfold trimLoop at h1
    split at h1
    · rcases Nat.lt_or_ge i k with h | h
      · exact ih i h1 h
      · have : i = k := by omega
        subst this; assumption
    · omega

theorem trimLoop_greatest (mem : Nat → Nat) (a n k : Nat) (hk : k ≤ n)
    (h : k = 0 ∨ mem (a + (k - 1)) ≠ 32) : k ≤ trimLoop mem a n := by
  rcases h with h | h
  · omega
  · by_contra hlt
    have hk0 : k ≠ 0 := by
      intro h0
      omega
    exact h (trimLoop_blank mem a n (k - 1) (by omega) (by omega))

theorem nulUpTo_eq_false (mem : Nat → Nat) (t i : Nat)
    (h : ∀ j, j ≤ i → mem (t + j) ≠ 0) : nulUpTo mem t i = false := by
  unfold nulUpTo
  rw [List.any_eq_false]
  intro j hj
  have : j ≤ i := by
    have := List.mem_range.mp hj
    omega
  simpa using h j this

/-! ## `FIXCHAR`: the owned copy -/

theorem bytesAt_strncpyMem (mem : Nat → Nat) (s t m : Nat)
    (hnul : ∀ i, i < m → mem (t + i) ≠ 0) :
    bytesAt (strncpyMem mem s t (m + 1)) s (m + 1) = bytesAt mem t m ++ [0] := by
  apply List.ext_getElem
  · simp [bytesAt]
  · intro i h1 h2
    have hi : i < m + 1 := by simpa [bytesAt] using h1
    rcases Nat.lt_or_ge i m with h | h
    · have hn : nulUpTo mem t i = false :=
        nulUpTo_eq_false mem t i (fun j hj => hnul j (by omega))
      have h3 : ¬ (s + i + 1 = s + (m + 1)) := by omega
      rw [List.getElem_append_left (by simpa [bytesAt] using h)]
      simp [bytesAt, strncpyMem, hi, h3, hn]
    · have him : i = m := by omega
      subst him
      have h3 : s + i + 1 = s + (i + 1) := by omega
      rw [List.getElem_append_right (by simp [bytesAt])]
      simp [bytesAt, strncpyMem, h3]

/-- C1: on a buffer that is not the Character null address, with the allocation and the copy
succeeding and no NUL among the first `m` bytes, `FIXCHAR` goes on with `b` the new block of
`m + 1` bytes, which holds the first `m` bytes of the buffer followed by the terminator; `m`, the
value the loop leaves in `n`, is the largest `k <= n` with `k = 0` or `a[k-1]` not a blank. -/
theorem FIXCHAR_owned_copy (nullChar : Nat) (r : MallocResult) (s : CharStub)
    (ha : s.a ≠ nullChar) (hr : r.ierr = 0)
    (hnul : ∀ i, i < trimLoop s.heap.mem s.a s.n → s.heap.mem (s.a + i) ≠ 0) :
    (trimLoop s.heap.mem s.a s.n ≤ s.n ∧
      (trimLoop s.heap.mem s.a s.n = 0 ∨
        s.heap.mem (s.a + (trimLoop s.heap.mem s.a s.n - 1)) ≠ 32) ∧
      ∀ k, k ≤ s.n → (k = 0 ∨ s.heap.mem (s.a + (k - 1)) ≠ 32) →
        k ≤ trimLoop s.heap.mem s.a s.n) ∧
    ∃ s', FIXCHAR nullChar r 0 s = Flow.next s' ∧ s'.b = r.ptr ∧ s'.a = s.a ∧ s'.ierr = 0 ∧
      s'.n = trimLoop s.heap.mem s.a s.n ∧
      s'.heap.allocs = (r.ptr, trimLoop s.heap.mem s.a s.n + 1) :: s.heap.allocs ∧
      bytesAt s'.heap.mem s'.b (trimLoop s.heap.mem s.a s.n + 1)
        = bytesAt s.heap.mem s.a (trimLoop s.heap.mem s.a s.n) ++ [0] := by
  refine ⟨⟨trimLoop_le _ _ _, trimLoop_last _ _ _,
    fun k hk h => trimLoop_greatest _ _ _ k hk h⟩, ?_⟩
  refine ⟨{ a := s.a, n := trimLoop s.heap.mem s.a s.n, b := r.ptr, ierr := 0,
             heap := { mem := strncpyMem s.heap.mem r.ptr s.a (trimLoop s.heap.mem s.a s.n + 1),
                       allocs := (r.ptr, trimLoop s.heap.mem s.a s.n + 1) :: s.heap.allocs } },
    ?_, rfl, rfl, rfl, rfl, rfl, ?_⟩
  · simp [FIXCHAR, PetscMalloc, PetscStrncpy, ha, hr]
  · exact bytesAt_strncpyMem _ _ _ _ hnul

/-- C1, on the two strings of the specification: `("hello   ", 8)` gives `"hello"` and
`("a b  ", 5)` gives `"a b"`, each followed by the terminator. -/
theorem FIXCHAR_owned_copy_witness :
    (∃ s', FIXCHAR 7 ⟨0, 500⟩ 0 (charStubOf 100 (asciiBytes "hello   ") 8) = Flow.next s' ∧
      bytesAt s'.heap.mem s'.b 6 = asciiBytes "hello" ++ [0]) ∧
    (∃ s', FIXCHAR 7 ⟨0, 500⟩ 0 (charStubOf 100 (asciiBytes "a b  ") 5) = Flow.next s' ∧
      bytesAt s'.heap.mem s'.b 4 = asciiBytes "a b" ++ [0]) := by
  constructor
  · obtain ⟨_, s', h1, _, _, _, _, _, h2⟩ :=
      FIXCHAR_owned_copy 7 ⟨0, 500⟩ (charStubOf 100 (asciiBytes "hello   ") 8)
        (by decide) rfl (by decide)
    exact ⟨s', h1, h2⟩
  · obtain ⟨_, s', h1, _, _, _, _, _, h2⟩ :=
      FIXCHAR_owned_copy 7 ⟨0, 500⟩ (charStubOf 100 (asciiBytes "a b  ") 5)
        (by decide) rfl (by decide)
    exact ⟨s', h1, h2⟩

/-! ## `FIXRETURNCHAR`: blank padding -/

theorem nulLoop_eq (mem : Nat → Nat) (a k : Nat) (hz : mem (a + k) = 0) :
    ∀ r i, i ≤ k → k < i + r → (∀ j, i ≤ j → j < k → mem (a + j) ≠ 0) →
      nulLoop mem a i r = k := by
  intro r
  induction r with
  | zero => intro i h1 h2; omega
  | succ r ih =>
    intro i h1 h2 hnz
    unfold nulLoop
    rcases Nat.eq_or_lt_of_le h1 with h | h
    · subst h
      simp [hz]
    · have hi : mem (a + i) ≠ 0 := hnz i (Nat.le_refl i) h
      simp only [hi, ne_eq, not_false_eq_true, if_true]
      exact ih (i + 1) (by omega) (by omega) (fun j hj1 hj2 => hnz j (by omega) hj2)

theorem padLoop_apply (a : Nat) :
    ∀ r (mem : Nat → Nat) i p,
      padLoop mem a i r p = if a + i ≤ p ∧ p < a + i + r then 32 else mem p := by
  intro r
  induction r with
  | zero =>
    intro mem i p
    have : ¬ (a + i ≤ p ∧ p < a + i + 0) := by omega
    rw [if_neg this]
    rfl
  | succ r ih =>
    intro mem i p
    unfold padLoop
    rw [ih]
    by_cases hp : p = a + i
    · subst hp
      have h1 : ¬ (a + (i + 1) ≤ a + i ∧ a + i < a + (i + 1) + r) := by omega
      have h2 : a + i ≤ a + i ∧ a + i < a + i + (r + 1) := by omega
      rw [if_neg h1, if_pos h2, Function.update_same]
    · rw [Function.update_noteq hp]
      by_cases hq : a + i ≤ p ∧ p < a + i + (r + 1)
      · have h1 : a + (i + 1) ≤ p ∧ p < a + (i + 1) + r := by omega
        rw [if_pos h1, if_pos hq]
      · have h1 : ¬ (a + (i + 1) ≤ p ∧ p < a + (i + 1) + r) := by omega
        rw [if_neg h1, if_neg hq]

/-- C2: when the first NUL of the buffer `a` of capacity `n` is at index `k < n`,
`FIXRETURNCHAR` with the flag set leaves bytes `0 .. k-1` as they are, stores a blank in every
byte `k .. n-1`, and leaves every address outside `a+k .. a+n-1` as it is, those at index `n` and
beyond in particular. -/
theorem FIXRETURNCHAR_pads (mem : Nat → Nat) (a n k : Nat) (hk : k < n)
    (hz : mem (a + k) = 0) (hnz : ∀ j, j < k → mem (a + j) ≠ 0) :
    (∀ j, j < k → FIXRETURNCHAR true mem a n (a + j) = mem (a + j)) ∧
    (∀ j, k ≤ j → j < n → FIXRETURNCHAR true mem a n (a + j) = 32) ∧
    (∀ p, p < a + k ∨ a + n ≤ p → FIXRETURNCHAR true mem a n p = mem p) := by
  have hloop : nulLoop mem a 0 n = k :=
    nulLoop_eq mem a k hz n 0 (Nat.zero_le k) (by omega) (fun j _ hj => hnz j hj)
  have happ : ∀ p, FIXRETURNCHAR true mem a n p = if a + k ≤ p ∧ p < a + n then 32 else mem p := by
    intro p
    simp only [FIXRETURNCHAR, if_true, hloop, padLoop_apply]
    have : a + k + (n - k) = a + n := by omega
    rw [this]
  refine ⟨?_, ?_, ?_⟩
  · intro j hj
    rw [happ]
    have : ¬ (a + k ≤ a + j ∧ a + j < a + n) := by omega
    rw [if_neg this]
  · intro j h1 h2
    rw [happ]
    have : a + k ≤ a + j ∧ a + j < a + n := by omega
    rw [if_pos this]
  · intro p hp
    rw [happ]
    have : ¬ (a + k ≤ p ∧ p < a + n) := by omega
    rw [if_neg this]

/-- C2, on the example of the specification: the result `"hi"` in a buffer of capacity 5 becomes
`"hi   "`, and the byte behind the buffer is not touched. -/
theorem FIXRETURNCHAR_pads_witness :
    ((∀ j, j < 2 →
        FIXRETURNCHAR true (memOf 100 (asciiBytes "hi" ++ [0, 120, 121, 122])) 100 5 (100 + j)
          = memOf 100 (asciiBytes "hi" ++ [0, 120, 121, 122]) (100 + j)) ∧
      (∀ j, 2 ≤ j → j < 5 →
        FIXRETURNCHAR true (memOf 100 (asciiBytes "hi" ++ [0, 120, 121, 122])) 100 5 (100 + j)
          = 32) ∧
      (∀ p, p < 100 + 2 ∨ 100 + 5 ≤ p →
        FIXRETURNCHAR true (memOf 100 (asciiBytes "hi" ++ [0, 120, 121, 122])) 100 5 p
          = memOf 100 (asciiBytes "hi" ++ [0, 120, 121, 122]) p)) ∧
    bytesAt (FIXRETURNCHAR true (memOf 100 (asciiBytes "hi" ++ [0, 120, 121, 122])) 100 5) 100 6
      = asciiBytes "hi   " ++ [122] :=
  ⟨FIXRETURNCHAR_pads (memOf 100 (asciiBytes "hi" ++ [0, 120, 121, 122])) 100 5 2
      (by decide) (by decide) (by decide),
    by decide⟩

/-! ## The `CHKFORTRANNULL...` checks -/

/-- C3, as stated, fails: the address 200 of a handle slot that holds `NULL` passes the Object
test and no other, yet `CHKFORTRANNULLINTEGER` neither sets the status nor returns; the stub goes
on with the argument as it was. -/
theorem CHKFORTRANNULLINTEGER_passes_object_null :
    Check.own Check.INTEGER ≠ Category.Object ∧
    isNullOf exampleNulls exampleLoad Category.Object 200 = true ∧
    Check.run exampleNulls exampleLoad Check.INTEGER ⟨200, 0, []⟩ = Flow.next ⟨200, 0, []⟩ ∧
    (Check.run exampleNulls exampleLoad Check.INTEGER ⟨200, 0, []⟩).returned = false ∧
    (Check.run exampleNulls exampleLoad Check.INTEGER ⟨200, 0, []⟩).state.ierr ≠ 1 := by
  decide

/-- C3, amended: a check reports the error (hands its message to `PetscError`, sets the status
to 1) and returns at once for every value that passes the null test of a category other than its
own, where the category is one of Integer, Scalar, Double, Real, Boolean, Character, Function or,
for `CHKFORTRANNULLFUNCTION` only, Object. The five checks for data arguments (INTEGER, SCALAR,
DOUBLE, REAL, BOOL) do not read pointer memory: the Object test has no part in them. -/
theorem Check_rejects_foreign_null (G : FortranNulls) (load : Nat → Nat) (k : Check)
    (s : ArgStub) :
    (∀ c, c ≠ k.own → (c ≠ Category.Object ∨ k = Check.FUNCTION) →
      isNullOf G load c s.a = true →
      Check.run G load k s = Flow.ret { s with errors := k.message :: s.errors, ierr := 1 }) ∧
    (k ≠ Check.OBJECT → k ≠ Check.FUNCTION →
      ∀ load', Check.run G load' k s = Check.run G load k s) := by
  constructor
  · intro c hc hlist hm
    cases k <;> cases c <;>
      simp_all [Check.own, Check.run, Check.message, isNullOf, chkFail, CHKFORTRANNULLINTEGER,
        CHKFORTRANNULLSCALAR, CHKFORTRANNULLDOUBLE, CHKFORTRANNULLREAL, CHKFORTRANNULLOBJECT,
        CHKFORTRANNULLBOOL, CHKFORTRANNULLFUNCTION]
  · intro h1 h2 load'
    cases k <;> simp_all [Check.run]

/-- C3, amended, at concrete values: `CHKFORTRANNULLINTEGER` on the Scalar null address, and
`CHKFORTRANNULLFUNCTION` on the address of a slot that holds `NULL`. -/
theorem Check_rejects_foreign_null_witness :
    Check.run exampleNulls exampleLoad Check.INTEGER ⟨102, 0, []⟩
      = Flow.ret ⟨102, 1, ["Use PETSC_NULL_INTEGER"]⟩ ∧
    Check.run exampleNulls exampleLoad Check.FUNCTION ⟨200, 0, []⟩
      = Flow.ret ⟨200, 1, ["Use PETSC_NULL_FUNCTION"]⟩ :=
  ⟨(Check_rejects_foreign_null exampleNulls exampleLoad Check.INTEGER ⟨102, 0, []⟩).1
      Category.Scalar (by decide) (Or.inl (by decide)) (by decide),
   (Check_rejects_foreign_null exampleNulls exampleLoad Check.FUNCTION ⟨200, 0, []⟩).1
      Category.Object (by decide) (Or.inr rfl) (by decide)⟩

theorem isNullOf_disjoint (G : FortranNulls) (load : Nat → Nat)
    (hd : G.addresses.Nodup) (ho : ∀ p ∈ G.addresses, FORTRANNULLOBJECT load p = false)
    (a : Nat) (c c' : Category) (h1 : isNullOf G load c a = true)
    (h2 : isNullOf G load c' a = true) : c = c' := by
  simp only [FortranNulls.addresses, List.nodup_cons, List.mem_cons, List.mem_singleton,
    List.not_mem_nil, not_or, List.nodup_nil, forall_eq_or_imp, forall_eq, or_false, and_true,
    FORTRANNULLOBJECT, beq_eq_false_iff_ne, ne_eq, not_false_eq_true, implies_true] at hd ho
  obtain ⟨⟨_, _, _, _, _, _⟩, ⟨_, _, _, _, _⟩, ⟨_, _, _, _⟩, ⟨_, _, _⟩, ⟨_, _⟩, _⟩ := hd
  obtain ⟨_, _, _, _, _, _, _⟩ := ho
  cases c <;> cases c' <;>
    simp only [isNullOf, FORTRANNULLINTEGER, FORTRANNULLSCALAR, FORTRANNULLDOUBLE,
      FORTRANNULLREAL, FORTRANNULLBOOL, FORTRANNULLCHARACTER, FORTRANNULLFUNCTION,
      FORTRANNULLOBJECT, beq_iff_eq] at h1 h2 <;>
    first
      | rfl
      | exact absurd (h1.symm.trans h2) (by assumption)
      | exact absurd (h2.symm.trans h1) (by assumption)
      | (subst h1; exact absurd h2 (by assumption))
      | (subst h2; exact absurd h1 (by assumption))

theorem Check_run_of_tests (G : FortranNulls) (load : Nat → Nat) (k : Check) (s : ArgStub)
    (own : Bool) (hown : isNullOf G load k.own s.a = own)
    (hother : ∀ c, c ≠ k.own → isNullOf G load c s.a = false) :
    Check.run G load k s = Flow.next (if own then { s with a := 0 } else s) := by
  have h1 := hother Category.Integer
  have h2 := hother Category.Scalar
  have h3 := hother Category.Double
  have h4 := hother Category.Real
  have h5 := hother Category.Boolean
  have h6 := hother Category.Character
  have h7 := hother Category.Function
  have h8 := hother Category.Object
  cases k <;> simp only [Check.own, isNullOf, ne_eq, reduceCtorEq, not_false_eq_true,
      forall_true_left, not_true_eq_false] at h1 h2 h3 h4 h5 h6 h7 h8 hown <;>
    cases own <;>
    simp_all [Check.run, CHKFORTRANNULLINTEGER, CHKFORTRANNULLSCALAR, CHKFORTRANNULLDOUBLE,
      CHKFORTRANNULLREAL, CHKFORTRANNULLOBJECT, CHKFORTRANNULLBOOL, CHKFORTRANNULLFUNCTION,
      FORTRANNULLOBJECT]

/-- C4: when no value passes the null tests of two categories (the seven null addresses are
pairwise distinct and none of them is the address of a slot that holds `NULL`), every check, on a
value that passes the test of its own category, finds that the value passes the test of no other
category, replaces the argument by `NULL` and reports nothing; on a value that passes no null test
it leaves the argument as it is and reports nothing. -/
theorem Check_own_null_or_plain (G : FortranNulls) (load : Nat → Nat) (k : Check) (s : ArgStub)
    (hd : G.addresses.Nodup) (ho : ∀ p ∈ G.addresses, FORTRANNULLOBJECT load p = false) :
    (isNullOf G load k.own s.a = true →
      (∀ c, c ≠ k.own → isNullOf G load c s.a = false) ∧
      Check.run G load k s = Flow.next { s with a := 0 }) ∧
    ((∀ c, isNullOf G load c s.a = false) → Check.run G load k s = Flow.next s) := by
  constructor
  · intro hown
    have hother : ∀ c, c ≠ k.own → isNullOf G load c s.a = false := by
      intro c hc
      cases h : isNullOf G load c s.a
      · rfl
      · exact absurd (isNullOf_disjoint G load hd ho s.a c k.own h hown) hc
    exact ⟨hother, by simpa using Check_run_of_tests G load k s true hown hother⟩
  · intro hnone
    simpa using Check_run_of_tests G load k s false (hnone k.own) (fun c _ => hnone c)

/-- C4 at concrete values: with the seven distinct example addresses, `CHKFORTRANNULLINTEGER`
turns the Integer null address into `NULL`, `CHKFORTRANNULLOBJECT` turns the address of a slot that
holds `NULL` into `NULL`, and `CHKFORTRANNULLSCALAR` leaves the plain address 300 as it is; none
reports an error. -/
theorem Check_own_null_or_plain_witness :
    Check.run exampleNulls exampleLoad Check.INTEGER ⟨101, 0, []⟩ = Flow.next ⟨0, 0, []⟩ ∧
    Check.run exampleNulls exampleLoad Check.OBJECT ⟨200, 0, []⟩ = Flow.next ⟨0, 0, []⟩ ∧
    Check.run exampleNulls exampleLoad Check.SCALAR ⟨300, 0, []⟩ = Flow.next ⟨300, 0, []⟩ :=
  ⟨((Check_own_null_or_plain exampleNulls exampleLoad Check.INTEGER ⟨101, 0, []⟩
      (by decide) (by decide)).1 (by decide)).2,
   ((Check_own_null_or_plain exampleNulls exampleLoad Check.OBJECT ⟨200, 0, []⟩
      (by decide) (by decide)).1 (by decide)).2,
   (Check_own_null_or_plain exampleNulls exampleLoad Check.SCALAR ⟨300, 0, []⟩
      (by decide) (by decide)).2 (fun c => by cases c <;> decide)⟩

/-! ## Destroy stubs -/

theorem xxxDestroyStub_of_destroyed (e : Nat) (s : HandleStub) (h : s.slot = -2) :
    xxxDestroyStub e s = { s with ierr := 0 } := by
  cases s with
  | mk slot ierr destroyed =>
    simp only at h
    subst h
    simp [xxxDestroyStub, PETSC_FORTRAN_OBJECT_F_DESTROYED_TO_C_NULL, XxxDestroy,
      PETSC_FORTRAN_OBJECT_C_NULL_TO_F_DESTROYED]

theorem destroyCalls_of_destroyed (later : List Nat) (s : HandleStub) (h : s.slot = -2)
    (hi : s.ierr = 0) : destroyCalls later s = s := by
  induction later with
  | nil => rfl
  | cons e es ih =>
    have hstep : xxxDestroyStub e s = s := by
      rw [xxxDestroyStub_of_destroyed e s h]
      cases s
      simp_all
    simp only [destroyCalls, List.foldl_cons, hstep]
    exact ih

/-- C5: a destroy stub built from the two constructs around the library destroy, called on a
slot that holds a live object which the library destroys successfully, leaves the slot destroyed
(`-2`) with status 0 and the object destroyed once; whatever number of further calls follows, and
whatever the library would report on a live object, each leaves the state exactly so: status 0,
slot destroyed, nothing destroyed again. -/
theorem destroy_stub_destroys_once (s : HandleStub) (h0 : s.slot ≠ 0) (h2 : s.slot ≠ -2)
    (later : List Nat) :
    (xxxDestroyStub 0 s).slot = -2 ∧ (xxxDestroyStub 0 s).ierr = 0 ∧
    (xxxDestroyStub 0 s).destroyed = s.slot :: s.destroyed ∧
    destroyCalls later (xxxDestroyStub 0 s) = xxxDestroyStub 0 s ∧
    (destroyCalls later (xxxDestroyStub 0 s)).destroyed.count s.slot
      = s.destroyed.count s.slot + 1 := by
  have hfirst : xxxDestroyStub 0 s = { slot := -2, ierr := 0, destroyed := s.slot :: s.destroyed } := by
    simp [xxxDestroyStub, PETSC_FORTRAN_OBJECT_F_DESTROYED_TO_C_NULL, XxxDestroy,
      PETSC_FORTRAN_OBJECT_C_NULL_TO_F_DESTROYED, h0, h2]
  have hlater := destroyCalls_of_destroyed later (xxxDestroyStub 0 s)
    (by rw [hfirst]) (by rw [hfirst])
  refine ⟨by rw [hfirst], by rw [hfirst], by rw [hfirst], hlater, ?_⟩
  rw [hlater, hfirst]
  simp

/-- C5 at a concrete slot: the live object at address 4096 is destroyed by the first call, and
three further calls change nothing. -/
theorem destroy_stub_destroys_once_witness :
    xxxDestroyStub 0 ⟨4096, 0, []⟩ = ⟨-2, 0, [4096]⟩ ∧
    destroyCalls [0, 7, 0] (xxxDestroyStub 0 ⟨4096, 0, []⟩) = ⟨-2, 0, [4096]⟩ :=
  have h := destroy_stub_destroys_once ⟨4096, 0, []⟩ (by decide) (by decide) [0, 7, 0]
  ⟨by decide, h.2.2.2.1.trans (by decide)⟩

/-! ## `PetscObjectAllocateFortranPointers` -/

theorem allocate_of_table (fpSize : Nat) (r : MallocResult) (zst N : Nat) (s : ObjStub)
    (h : s.obj.fortran_func_pointers ≠ 0) :
    PetscObjectAllocateFortranPointers fpSize r zst N s = Flow.next s := by
  simp [PetscObjectAllocateFortranPointers, h]

theorem allocate_of_no_table (fpSize : Nat) (r : MallocResult) (N : Nat) (s : ObjStub)
    (h0 : s.obj.fortran_func_pointers = 0) (hr : r.ierr = 0) :
    PetscObjectAllocateFortranPointers fpSize r 0 N s
      = Flow.next
          { obj := { fortran_func_pointers := r.ptr, num_fortran_func_pointers := N },
            ierr := 0,
            heap := { mem := zeroMem s.heap.mem r.ptr (N * fpSize),
                      allocs := (r.ptr, N * fpSize) :: s.heap.allocs } } := by
  simp [PetscObjectAllocateFortranPointers, PetscMalloc, PetscMemzero, h0, hr]

theorem allocCalls_of_table (fpSize : Nat) (calls : List AllocCall) (s : ObjStub)
    (h : s.obj.fortran_func_pointers ≠ 0) : allocCalls fpSize calls s = s := by
  induction calls with
  | nil => rfl
  | cons c cs ih =>
    simp only [allocCalls, List.foldl_cons, allocate_of_table fpSize c.r c.zst c.N s h,
      Flow.state]
    exact ih

/-- C6, as stated, fails: after `PetscObjectAllocateFortranPointers(obj,4)` has succeeded, the
same construct with 8 slots does not return and sets no status; the table and the recorded count
stay those of the first call and nothing is allocated. -/
theorem allocate_4_then_8_reports_nothing :
    (PetscObjectAllocateFortranPointers 8 ⟨0, 4096⟩ 0 4 freshObjStub).returned = false ∧
    (PetscObjectAllocateFortranPointers 8 ⟨0, 4096⟩ 0 4 freshObjStub).state.ierr = 0 ∧
    (PetscObjectAllocateFortranPointers 8 ⟨0, 8192⟩ 0 8
      (PetscObjectAllocateFortranPointers 8 ⟨0, 4096⟩ 0 4 freshObjStub).state).returned = false ∧
    (PetscObjectAllocateFortranPointers 8 ⟨0, 8192⟩ 0 8
      (PetscObjectAllocateFortranPointers 8 ⟨0, 4096⟩ 0 4 freshObjStub).state).state.ierr = 0 ∧
    (PetscObjectAllocateFortranPointers 8 ⟨0, 8192⟩ 0 8
      (PetscObjectAllocateFortranPointers 8 ⟨0, 4096⟩ 0 4 freshObjStub).state).state.obj
        = ⟨4096, 4⟩ ∧
    (PetscObjectAllocateFortranPointers 8 ⟨0, 8192⟩ 0 8
      (PetscObjectAllocateFortranPointers 8 ⟨0, 4096⟩ 0 4 freshObjStub).state).state.heap.allocs
        = [(4096, 32)] := by
  decide

/-- C6, amended: after `PetscObjectAllocateFortranPointers` has succeeded on an object (the
allocator gave a block that is not `NULL`), the construct used again on that object with a
different slot count is a silent no-op: it does not return, it leaves status, object and heap as
they are, so the recorded count is still the first one and differs from the count asked for. The
header has no check for a table-size conflict. -/
theorem allocate_other_count_is_silent (fpSize : Nat) (r r' : MallocResult) (zst' N N' : Nat)
    (s : ObjStub) (h0 : s.obj.fortran_func_pointers = 0) (hr : r.ierr = 0) (hp : r.ptr ≠ 0)
    (hN : N' ≠ N) :
    ∃ s1, PetscObjectAllocateFortranPointers fpSize r 0 N s = Flow.next s1 ∧ s1.ierr = 0 ∧
      PetscObjectAllocateFortranPointers fpSize r' zst' N' s1 = Flow.next s1 ∧
      s1.obj.num_fortran_func_pointers = N ∧ s1.obj.num_fortran_func_pointers ≠ N' := by
  refine ⟨_, allocate_of_no_table fpSize r N s h0 hr, rfl, ?_, rfl, fun h => hN h.symm⟩
  exact allocate_of_table fpSize r' zst' N' _ hp

/-- C6, amended, at the counts of the specification: 4 slots, then 8. -/
theorem allocate_other_count_is_silent_witness :
    ∃ s1, PetscObjectAllocateFortranPointers 8 ⟨0, 4096⟩ 0 4 freshObjStub = Flow.next s1 ∧
      s1.ierr = 0 ∧
      PetscObjectAllocateFortranPointers 8 ⟨0, 8192⟩ 0 8 s1 = Flow.next s1 ∧
      s1.obj.num_fortran_func_pointers = 4 ∧ s1.obj.num_fortran_func_pointers ≠ 8 :=
  allocate_other_count_is_silent 8 ⟨0, 4096⟩ ⟨0, 8192⟩ 0 4 8 freshObjStub rfl rfl
    (by decide) (by decide)

/-- C7: on an object without a table, a successful `PetscObjectAllocateFortranPointers(obj,N)`
(the allocator gave a block that is not `NULL`) leaves `fortran_func_pointers` at a new block of
exactly `N * sizeof(void(*)(void))` bytes, every byte of every one of the `N` slots zero, and
`num_fortran_func_pointers = N`; every later use of the construct on that object, with whatever
count, goes on without allocating and leaves object, status and heap as they are. -/
theorem allocate_once (fpSize : Nat) (r : MallocResult) (N : Nat) (s : ObjStub)
    (h0 : s.obj.fortran_func_pointers = 0) (hr : r.ierr = 0) (hp : r.ptr ≠ 0) :
    ∃ s1, PetscObjectAllocateFortranPointers fpSize r 0 N s = Flow.next s1 ∧
      s1.obj.fortran_func_pointers = r.ptr ∧ s1.obj.num_fortran_func_pointers = N ∧
      s1.ierr = 0 ∧
      s1.heap.allocs = (r.ptr, N * fpSize) :: s.heap.allocs ∧
      (∀ i, i < N → ∀ j, j < fpSize → s1.heap.mem (r.ptr + i * fpSize + j) = 0) ∧
      (∀ c : AllocCall,
        PetscObjectAllocateFortranPointers fpSize c.r c.zst c.N s1 = Flow.next s1) ∧
      (∀ calls, allocCalls fpSize calls s1 = s1) := by
  refine ⟨_, allocate_of_no_table fpSize r N s h0 hr, rfl, rfl, rfl, rfl, ?_, ?_, ?_⟩
  · intro i hi j hj
    have hlt : i * fpSize + j < N * fpSize := by
      calc i * fpSize + j < i * fpSize + fpSize := by omega
        _ = (i + 1) * fpSize := by ring
        _ ≤ N * fpSize := Nat.mul_le_mul_right fpSize hi
    have hin : r.ptr ≤ r.ptr + i * fpSize + j ∧ r.ptr + i * fpSize + j < r.ptr + N * fpSize := by
      omega
    simp only [zeroMem]
    rw [if_pos hin]
  · intro c
    exact allocate_of_table fpSize c.r c.zst c.N _ hp
  · intro calls
    exact allocCalls_of_table fpSize calls _ hp

/-- C7 at concrete values: 4 slots of 8 bytes at address 4096, then the same request again and a
request for 8 slots. -/
theorem allocate_once_witness :
    ∃ s1, PetscObjectAllocateFortranPointers 8 ⟨0, 4096⟩ 0 4 freshObjStub = Flow.next s1 ∧
      s1.obj = ⟨4096, 4⟩ ∧ s1.heap.allocs = [(4096, 32)] ∧
      bytesAt s1.heap.mem 4096 33 = List.replicate 32 0 ++ [255] ∧
      allocCalls 8 [⟨4, ⟨0, 8192⟩, 0⟩, ⟨8, ⟨0, 12288⟩, 0⟩] s1 = s1 := by
  obtain ⟨s1, h1, h2, h3, _, h5, _, _, h8⟩ :=
    allocate_once 8 ⟨0, 4096⟩ 4 freshObjStub rfl rfl (by decide)
  refine ⟨s1, h1, ?_, h5, ?_, h8 _⟩
  · cases hs : s1.obj
    simp_all
  · have e := allocate_of_no_table 8 ⟨0, 4096⟩ 4 freshObjStub rfl rfl
    rw [h1] at e
    injection e with e
    subst e
    decide

/-! ## Default viewers -/

/-- C8: `PetscPatchDefaultViewers_Fortran` assigns to code 4 the draw-world viewer, 5 draw-self,
8 stdout-world, 9 stdout-self, 10 stderr-world, 11 stderr-self, 12 binary-world, 13 binary-self,
14 what it assigns to 12 and 15 what it assigns to 13, whether or not socket viewers are compiled
in; with socket viewers compiled in it assigns to 6 the socket-world viewer and to 7
socket-self. -/
theorem PetscPatchDefaultViewers_Fortran_codes (PETSC_USE_SOCKET_VIEWER : Bool) (V : Viewers) :
    PetscPatchDefaultViewers_Fortran PETSC_USE_SOCKET_VIEWER V 4 = V.PETSC_VIEWER_DRAW_WORLD ∧
    PetscPatchDefaultViewers_Fortran PETSC_USE_SOCKET_VIEWER V 5 = V.PETSC_VIEWER_DRAW_SELF ∧
    PetscPatchDefaultViewers_Fortran PETSC_USE_SOCKET_VIEWER V 8 = V.PETSC_VIEWER_STDOUT_WORLD ∧
    PetscPatchDefaultViewers_Fortran PETSC_USE_SOCKET_VIEWER V 9 = V.PETSC_VIEWER_STDOUT_SELF ∧
    PetscPatchDefaultViewers_Fortran PETSC_USE_SOCKET_VIEWER V 10 = V.PETSC_VIEWER_STDERR_WORLD ∧
    PetscPatchDefaultViewers_Fortran PETSC_USE_SOCKET_VIEWER V 11 = V.PETSC_VIEWER_STDERR_SELF ∧
    PetscPatchDefaultViewers_Fortran PETSC_USE_SOCKET_VIEWER V 12 = V.PETSC_VIEWER_BINARY_WORLD ∧
    PetscPatchDefaultViewers_Fortran PETSC_USE_SOCKET_VIEWER V 13 = V.PETSC_VIEWER_BINARY_SELF ∧
    PetscPatchDefaultViewers_Fortran PETSC_USE_SOCKET_VIEWER V 14
      = PetscPatchDefaultViewers_Fortran PETSC_USE_SOCKET_VIEWER V 12 ∧
    PetscPatchDefaultViewers_Fortran PETSC_USE_SOCKET_VIEWER V 15
      = PetscPatchDefaultViewers_Fortran PETSC_USE_SOCKET_VIEWER V 13 ∧
    PetscPatchDefaultViewers_Fortran true V 6 = V.PETSC_VIEWER_SOCKET_WORLD ∧
    PetscPatchDefaultViewers_Fortran true V 7 = V.PETSC_VIEWER_SOCKET_SELF :=
  ⟨rfl, rfl, rfl, rfl, rfl, rfl, rfl, rfl, rfl, rfl, rfl, rfl⟩

/-- C9: on every value that is not one of the codes 4, 5, 8, ..., 15, nor 6 or 7 when socket
viewers are compiled in, `PetscPatchDefaultViewers_Fortran` assigns the value itself. -/
theorem PetscPatchDefaultViewers_Fortran_other (PETSC_USE_SOCKET_VIEWER : Bool) (V : Viewers)
    (x : Nat) (h : x ∉ aliasCodes PETSC_USE_SOCKET_VIEWER) :
    PetscPatchDefaultViewers_Fortran PETSC_USE_SOCKET_VIEWER V x = x := by
  cases PETSC_USE_SOCKET_VIEWER <;>
    simp only [aliasCodes, List.mem_cons, List.mem_singleton, List.not_mem_nil, or_false,
      not_or, Bool.false_eq_true, if_false, if_true] at h <;>
    simp [PetscPatchDefaultViewers_Fortran, PetscPatchDefaultViewers_Fortran_Socket,
      PETSC_VIEWER_DRAW_WORLD_FORTRAN, PETSC_VIEWER_DRAW_SELF_FORTRAN,
      PETSC_VIEWER_SOCKET_WORLD_FORTRAN, PETSC_VIEWER_SOCKET_SELF_FORTRAN,
      PETSC_VIEWER_STDOUT_WORLD_FORTRAN, PETSC_VIEWER_STDOUT_SELF_FORTRAN,
      PETSC_VIEWER_STDERR_WORLD_FORTRAN, PETSC_VIEWER_STDERR_SELF_FORTRAN,
      PETSC_VIEWER_BINARY_WORLD_FORTRAN, PETSC_VIEWER_BINARY_SELF_FORTRAN,
      PETSC_VIEWER_MATLAB_WORLD_FORTRAN, PETSC_VIEWER_MATLAB_SELF_FORTRAN, h]

/-- C9 at the values of the specification: 999 is passed through with and without socket
viewers, and without socket viewers 6 and 7 are passed through as well. -/
theorem PetscPatchDefaultViewers_Fortran_other_witness :
    PetscPatchDefaultViewers_Fortran true exampleViewers 999 = 999 ∧
    PetscPatchDefaultViewers_Fortran false exampleViewers 999 = 999 ∧
    PetscPatchDefaultViewers_Fortran false exampleViewers 6 = 6 ∧
    PetscPatchDefaultViewers_Fortran false exampleViewers 7 = 7 :=
  ⟨PetscPatchDefaultViewers_Fortran_other true exampleViewers 999 (by decide),
   PetscPatchDefaultViewers_Fortran_other false exampleViewers 999 (by decide),
   PetscPatchDefaultViewers_Fortran_other false exampleViewers 6 (by decide),
   PetscPatchDefaultViewers_Fortran_other false exampleViewers 7 (by decide)⟩

/-! ## `FIXCHAR`: the Character null address -/

/-- C10: when the buffer handed to `FIXCHAR` is the Character null address, the construct goes on
(no return) with `b` and `a` both `NULL`; status, declared length and heap, the list of allocated
blocks included, are as before, whatever the allocator and the copy would have answered. -/
theorem FIXCHAR_null_character (nullChar : Nat) (r : MallocResult) (cpy : Nat) (s : CharStub)
    (h : s.a = nullChar) :
    FIXCHAR nullChar r cpy s = Flow.next { s with a := 0, b := 0 } ∧
    (FIXCHAR nullChar r cpy s).returned = false ∧
    (FIXCHAR nullChar r cpy s).state.b = 0 ∧ (FIXCHAR nullChar r cpy s).state.a = 0 ∧
    (FIXCHAR nullChar r cpy s).state.heap.allocs = s.heap.allocs ∧
    (FIXCHAR nullChar r cpy s).state.ierr = s.ierr := by
  have e : FIXCHAR nullChar r cpy s = Flow.next { s with a := 0, b := 0 } := by
    simp [FIXCHAR, h]
  refine ⟨e, ?_, ?_, ?_, ?_, ?_⟩ <;> rw [e] <;> rfl

/-- C10 at a concrete stub: the Character null address is 7, the buffer argument is 7. -/
theorem FIXCHAR_null_character_witness :
    (FIXCHAR 7 ⟨0, 500⟩ 0 ⟨7, 8, 99, 0, ⟨memOf 7 [], [(64, 16)]⟩⟩).returned = false ∧
    (FIXCHAR 7 ⟨0, 500⟩ 0 ⟨7, 8, 99, 0, ⟨memOf 7 [], [(64, 16)]⟩⟩).state.b = 0 ∧
    (FIXCHAR 7 ⟨0, 500⟩ 0 ⟨7, 8, 99, 0, ⟨memOf 7 [], [(64, 16)]⟩⟩).state.a = 0 ∧
    (FIXCHAR 7 ⟨0, 500⟩ 0 ⟨7, 8, 99, 0, ⟨memOf 7 [], [(64, 16)]⟩⟩).state.heap.allocs
      = [(64, 16)] ∧
    (FIXCHAR 7 ⟨0, 500⟩ 0 ⟨7, 8, 99, 0, ⟨memOf 7 [], [(64, 16)]⟩⟩).state.ierr = 0 :=
  (FIXCHAR_null_character 7 ⟨0, 500⟩ 0 ⟨7, 8, 99, 0, ⟨memOf 7 [], [(64, 16)]⟩⟩ rfl).2

/-! ## `FIXCHAR` and `FREECHAR`: allocations -/

theorem FIXCHAR_next_cases (nullChar : Nat) (r : MallocResult) (cpy : Nat) (s s' : CharStub)
    (h : FIXCHAR nullChar r cpy s = Flow.next s') :
    (s.a = nullChar ∧ s' = { s with a := 0, b := 0 }) ∨
    (s.a ≠ nullChar ∧ r.ierr = 0 ∧ cpy = 0 ∧
      s' = { a := s.a, n := trimLoop s.heap.mem s.a s.n, b := r.ptr, ierr := 0,
             heap := { mem := strncpyMem s.heap.mem r.ptr s.a (trimLoop s.heap.mem s.a s.n + 1),
                       allocs := (r.ptr, trimLoop s.heap.mem s.a s.n + 1) :: s.heap.allocs } }) := by
  by_cases ha : s.a = nullChar
  · left
    refine ⟨ha, ?_⟩
    simp only [FIXCHAR, ha, if_true] at h
    injection h with h
    rw [← h]
  · right
    by_cases hr : r.ierr = 0
    · by_cases hc : cpy = 0
      · refine ⟨ha, hr, hc, ?_⟩
        simp [FIXCHAR, PetscMalloc, PetscStrncpy, ha, hr, hc] at h
        exact h.symm
      · simp [FIXCHAR, PetscMalloc, PetscStrncpy, ha, hr, hc] at h
    · simp [FIXCHAR, PetscMalloc, ha, hr] at h

/-- C11: whenever `FIXCHAR` succeeds (goes on), on the Character null address or on a buffer,
the block the allocator gave being no part of the Fortran buffer, `FREECHAR` run on the resulting
`a` and `b` with a successful `PetscFree` leaves the list of allocated blocks, and so their
number, as it was before `FIXCHAR`. On the null address nothing was allocated, `a` and `b` are
both `NULL` and `FREECHAR` frees nothing and changes nothing; on a buffer one block was allocated
and `FREECHAR` makes its one call of `PetscFree` on it. -/
theorem FIXCHAR_then_FREECHAR (nullChar : Nat) (r : MallocResult) (cpy : Nat) (s s' : CharStub)
    (hs : FIXCHAR nullChar r cpy s = Flow.next s') (hfresh : s.a ≠ nullChar → r.ptr ≠ s.a) :
    (FREECHAR 0 s').heap.allocs = s.heap.allocs ∧
    (FREECHAR 0 s').heap.allocs.length = s.heap.allocs.length ∧
    (s.a = nullChar →
      s'.heap.allocs = s.heap.allocs ∧ s'.a = 0 ∧ s'.b = 0 ∧ FREECHAR_frees s' = false ∧
      ∀ fr, FREECHAR fr s' = s') ∧
    (s.a ≠ nullChar →
      s'.heap.allocs.length = s.heap.allocs.length + 1 ∧ FREECHAR_frees s' = true ∧
      FREECHAR 0 s' = { s' with ierr := 0, heap := (PetscFree 0 s'.b s'.heap).2 }) := by
  rcases FIXCHAR_next_cases nullChar r cpy s s' hs with ⟨ha, rfl⟩ | ⟨ha, _, _, rfl⟩
  · have e : ∀ fr, FREECHAR fr { s with a := 0, b := 0 } = { s with a := 0, b := 0 } := by
      intro fr
      simp [FREECHAR]
    refine ⟨by rw [e], by rw [e], fun _ => ⟨rfl, rfl, rfl, by simp [FREECHAR_frees], e⟩,
      fun h => absurd ha h⟩
  · have hne : s.a ≠ r.ptr := fun h => hfresh ha h.symm
    have e : (FREECHAR 0
        { a := s.a, n := trimLoop s.heap.mem s.a s.n, b := r.ptr, ierr := 0,
          heap := { mem := strncpyMem s.heap.mem r.ptr s.a (trimLoop s.heap.mem s.a s.n + 1),
                    allocs := (r.ptr, trimLoop s.heap.mem s.a s.n + 1) :: s.heap.allocs } }
          ).heap.allocs = s.heap.allocs := by
      simp [FREECHAR, PetscFree, hne, List.eraseP_cons]
    refine ⟨e, by rw [e], fun h => absurd h ha, fun _ => ⟨by simp, ?_, ?_⟩⟩
    · simp [FREECHAR_frees, hne]
    · simp [FREECHAR, PetscFree, hne]

/-- C11 at concrete stubs: the buffer `"hello   "` at address 100 with the block at 500, and the
Character null address 7; in both the list of allocated blocks is back at its start. -/
theorem FIXCHAR_then_FREECHAR_witness :
    (FREECHAR 0 (FIXCHAR 7 ⟨0, 500⟩ 0 ⟨100, 8, 0, 0,
      ⟨memOf 100 (asciiBytes "hello   "), [(64, 16)]⟩⟩).state).heap.allocs = [(64, 16)] ∧
    (FIXCHAR 7 ⟨0, 500⟩ 0 ⟨100, 8, 0, 0,
      ⟨memOf 100 (asciiBytes "hello   "), [(64, 16)]⟩⟩).state.heap.allocs
        = [(500, 6), (64, 16)] ∧
    (FREECHAR 0 (FIXCHAR 7 ⟨0, 500⟩ 0 ⟨7, 8, 99, 0,
      ⟨memOf 7 [], [(64, 16)]⟩⟩).state).heap.allocs = [(64, 16)] :=
  ⟨(FIXCHAR_then_FREECHAR 7 ⟨0, 500⟩ 0
      ⟨100, 8, 0, 0, ⟨memOf 100 (asciiBytes "hello   "), [(64, 16)]⟩⟩ _ rfl
      (fun _ => by decide)).1,
   by decide,
   (FIXCHAR_then_FREECHAR 7 ⟨0, 500⟩ 0 ⟨7, 8, 99, 0, ⟨memOf 7 [], [(64, 16)]⟩⟩ _ rfl
      (fun h => absurd rfl h)).1⟩

/-- C12, as stated, fails: on the buffer `"hello   "`, with the allocation succeeding (block at
address 500) and the copy reporting status 5, `FIXCHAR` returns with status 5 while the block of
6 bytes it allocated is still allocated and `b` points to it. -/
theorem FIXCHAR_copy_failure_keeps_block :
    (FIXCHAR 7 ⟨0, 500⟩ 5 (charStubOf 100 (asciiBytes "hello   ") 8)).returned = true ∧
    (FIXCHAR 7 ⟨0, 500⟩ 5 (charStubOf 100 (asciiBytes "hello   ") 8)).state.ierr = 5 ∧
    (FIXCHAR 7 ⟨0, 500⟩ 5 (charStubOf 100 (asciiBytes "hello   ") 8)).state.b = 500 ∧
    (charStubOf 100 (asciiBytes "hello   ") 8).heap.allocs = [] ∧
    (FIXCHAR 7 ⟨0, 500⟩ 5 (charStubOf 100 (asciiBytes "hello   ") 8)).state.heap.allocs
      = [(500, 6)] := by
  decide

/-- C12, amended: on a buffer that is not the Character null address, when the allocation fails
`FIXCHAR` returns with the allocator's status and the list of allocated blocks as it was; when the
allocation succeeds and the copy fails `FIXCHAR` returns at once with the status of the copy, and
the block of `m + 1` bytes it allocated stays allocated, with `b` pointing to it: the header
releases nothing on an error path. -/
theorem FIXCHAR_failure (nullChar : Nat) (r : MallocResult) (cpy : Nat) (s : CharStub)
    (ha : s.a ≠ nullChar) :
    (r.ierr ≠ 0 →
      ∃ s', FIXCHAR nullChar r cpy s = Flow.ret s' ∧ s'.ierr = r.ierr ∧
        s'.heap.allocs = s.heap.allocs ∧ s'.heap.mem = s.heap.mem) ∧
    (r.ierr = 0 → cpy ≠ 0 →
      ∃ s', FIXCHAR nullChar r cpy s = Flow.ret s' ∧ s'.ierr = cpy ∧ s'.b = r.ptr ∧
        s'.heap.allocs = (r.ptr, trimLoop s.heap.mem s.a s.n + 1) :: s.heap.allocs) := by
  constructor
  · intro hr
    refine ⟨{ s with n := trimLoop s.heap.mem s.a s.n, ierr := r.ierr }, ?_, rfl, rfl, rfl⟩
    simp [FIXCHAR, PetscMalloc, ha, hr]
  · intro hr hc
    refine ⟨{ a := s.a, n := trimLoop s.heap.mem s.a s.n, b := r.ptr, ierr := cpy,
              heap := { mem := s.heap.mem,
                        allocs := (r.ptr, trimLoop s.heap.mem s.a s.n + 1) :: s.heap.allocs } },
      ?_, rfl, rfl, rfl⟩
    simp [FIXCHAR, PetscMalloc, PetscStrncpy, ha, hr, hc]

/-- C12, amended, at concrete values: the allocation failing with status 55, and the copy failing
with status 5 after the allocation of the block at 500. -/
theorem FIXCHAR_failure_witness :
    (∃ s', FIXCHAR 7 ⟨55, 0⟩ 0 (charStubOf 100 (asciiBytes "hello   ") 8) = Flow.ret s' ∧
      s'.ierr = 55 ∧ s'.heap.allocs = [] ∧
      s'.heap.mem = memOf 100 (asciiBytes "hello   ")) ∧
    (∃ s', FIXCHAR 7 ⟨0, 500⟩ 5 (charStubOf 100 (asciiBytes "hello   ") 8) = Flow.ret s' ∧
      s'.ierr = 5 ∧ s'.b = 500 ∧ s'.heap.allocs = [(500, 6)]) :=
  ⟨(FIXCHAR_failure 7 ⟨55, 0⟩ 0 (charStubOf 100 (asciiBytes "hello   ") 8) (by decide)).1
      (by decide),
   (FIXCHAR_failure 7 ⟨0, 500⟩ 5 (charStubOf 100 (asciiBytes "hello   ") 8) (by decide)).2
      rfl (by decide)⟩

/-! ## Callback dispatch -/

theorem dispatch_of_lookup_error {α : Type}
    (get : Nat → PetscFortranCallbackType → Nat → CallbackLookup) (call : Nat → α → Nat → Nat)
    (obj cid : Nat) (args : α) (cbclass : PetscFortranCallbackType)
    (invoked : List (Invocation α)) (h : (get obj cbclass cid).ierr ≠ 0) :
    PetscObjectUseFortranCallback_Private get call obj cid args cbclass invoked
      = ((get obj cbclass cid).ierr, invoked) := by
  simp [PetscObjectUseFortranCallback_Private, CHKERRQ, h]

theorem dispatch_of_null_func {α : Type}
    (get : Nat → PetscFortranCallbackType → Nat → CallbackLookup) (call : Nat → α → Nat → Nat)
    (obj cid : Nat) (args : α) (cbclass : PetscFortranCallbackType)
    (invoked : List (Invocation α)) (h : (get obj cbclass cid).ierr = 0)
    (hf : (get obj cbclass cid).func = 0) :
    PetscObjectUseFortranCallback_Private get call obj cid args cbclass invoked = (0, invoked) := by
  simp [PetscObjectUseFortranCallback_Private, CHKERRQ, h, hf]

/-- C13: in `PetscObjectUseFortranCallback` and in `PetscObjectUseFortranCallbackSubType`, when
the lookup succeeds and yields a null function pointer no callback is invoked and the status
returned is 0; when the lookup fails its status is returned and no callback is invoked. -/
theorem dispatch_without_callback {α : Type}
    (get : Nat → PetscFortranCallbackType → Nat → CallbackLookup) (call : Nat → α → Nat → Nat)
    (obj cid : Nat) (args : α) (invoked : List (Invocation α)) :
    ((get obj .PETSC_FORTRAN_CALLBACK_CLASS cid).ierr = 0 →
      (get obj .PETSC_FORTRAN_CALLBACK_CLASS cid).func = 0 →
      PetscObjectUseFortranCallback get call obj cid args invoked = (0, invoked)) ∧
    ((get obj .PETSC_FORTRAN_CALLBACK_CLASS cid).ierr ≠ 0 →
      PetscObjectUseFortranCallback get call obj cid args invoked
        = ((get obj .PETSC_FORTRAN_CALLBACK_CLASS cid).ierr, invoked)) ∧
    ((get obj .PETSC_FORTRAN_CALLBACK_SUBTYPE cid).ierr = 0 →
      (get obj .PETSC_FORTRAN_CALLBACK_SUBTYPE cid).func = 0 →
      PetscObjectUseFortranCallbackSubType get call obj cid args invoked = (0, invoked)) ∧
    ((get obj .PETSC_FORTRAN_CALLBACK_SUBTYPE cid).ierr ≠ 0 →
      PetscObjectUseFortranCallbackSubType get call obj cid args invoked
        = ((get obj .PETSC_FORTRAN_CALLBACK_SUBTYPE cid).ierr, invoked)) :=
  ⟨fun h hf => dispatch_of_null_func get call obj cid args _ invoked h hf,
   fun h => dispatch_of_lookup_error get call obj cid args _ invoked h,
   fun h hf => dispatch_of_null_func get call obj cid args _ invoked h hf,
   fun h => dispatch_of_lookup_error get call obj cid args _ invoked h⟩

/-- C13 at the example table: subtype callback 3 of object 1 is not set, so the dispatch returns
0 and invokes nothing; the lookup of class callback 9 fails with 56, which is returned. -/
theorem dispatch_without_callback_witness :
    PetscObjectUseFortranCallbackSubType exampleGet exampleCall 1 3 5 [] = (0, []) ∧
    PetscObjectUseFortranCallback exampleGet exampleCall 1 9 5 [] = (56, []) :=
  ⟨(dispatch_without_callback exampleGet exampleCall 1 3 5 []).2.2.1 (by decide) (by decide),
   (dispatch_without_callback exampleGet exampleCall 1 9 5 []).2.1 (by decide)⟩

/-- C14: in `PetscObjectUseFortranCallback_Private`, when the lookup succeeds and yields a
function pointer that is not null, the callback is invoked once, with the given arguments and the
context of the lookup, and the status returned is the status the callback reported, zero or
not. -/
theorem dispatch_with_callback {α : Type}
    (get : Nat → PetscFortranCallbackType → Nat → CallbackLookup) (call : Nat → α → Nat → Nat)
    (obj cid : Nat) (args : α) (cbclass : PetscFortranCallbackType)
    (invoked : List (Invocation α)) (h : (get obj cbclass cid).ierr = 0)
    (hf : (get obj cbclass cid).func ≠ 0) :
    PetscObjectUseFortranCallback_Private get call obj cid args cbclass invoked
      = (call (get obj cbclass cid).func args (get obj cbclass cid).ctx,
         { func := (get obj cbclass cid).func, args := args, ctx := (get obj cbclass cid).ctx }
           :: invoked) := by
  by_cases hc : call (get obj cbclass cid).func args (get obj cbclass cid).ctx = 0
  · simp [PetscObjectUseFortranCallback_Private, CHKERRQ, h, hf, hc]
  · simp [PetscObjectUseFortranCallback_Private, CHKERRQ, h, hf, hc]

/-- C14 at the example table: class callback 3 of object 1 is the function at 700 with context
70; with the argument 5 it reports 75, which the dispatch returns, with the argument 0 it reports
success and the dispatch returns 0; each time it is invoked once. -/
theorem dispatch_with_callback_witness :
    PetscObjectUseFortranCallback_Private exampleGet exampleCall 1 3 5
      .PETSC_FORTRAN_CALLBACK_CLASS [] = (75, [⟨700, 5, 70⟩]) ∧
    PetscObjectUseFortranCallback_Private exampleGet exampleCall 1 3 0
      .PETSC_FORTRAN_CALLBACK_CLASS [] = (0, [⟨700, 0, 70⟩]) :=
  ⟨dispatch_with_callback exampleGet exampleCall 1 3 5 .PETSC_FORTRAN_CALLBACK_CLASS []
      (by decide) (by decide),
   dispatch_with_callback exampleGet exampleCall 1 3 0 .PETSC_FORTRAN_CALLBACK_CLASS []
      (by decide) (by decide)⟩

/-! ## The destroyed marker -/

/-- C15: `PETSC_FORTRAN_OBJECT_F_DESTROYED_TO_C_NULL` turns a slot that holds the destroyed
marker `-2` into `NULL` and leaves every other state as it is; it never leaves `-2` in the slot,
touches nothing but the slot, and run twice does what it does run once. -/
theorem F_DESTROYED_TO_C_NULL_effect (s : HandleStub) :
    (s.slot = -2 → PETSC_FORTRAN_OBJECT_F_DESTROYED_TO_C_NULL s = { s with slot := 0 }) ∧
    (s.slot ≠ -2 → PETSC_FORTRAN_OBJECT_F_DESTROYED_TO_C_NULL s = s) ∧
    (PETSC_FORTRAN_OBJECT_F_DESTROYED_TO_C_NULL s).slot ≠ -2 ∧
    (PETSC_FORTRAN_OBJECT_F_DESTROYED_TO_C_NULL s).ierr = s.ierr ∧
    (PETSC_FORTRAN_OBJECT_F_DESTROYED_TO_C_NULL s).destroyed = s.destroyed ∧
    PETSC_FORTRAN_OBJECT_F_DESTROYED_TO_C_NULL (PETSC_FORTRAN_OBJECT_F_DESTROYED_TO_C_NULL s)
      = PETSC_FORTRAN_OBJECT_F_DESTROYED_TO_C_NULL s := by
  by_cases h : s.slot = -2
  · simp [PETSC_FORTRAN_OBJECT_F_DESTROYED_TO_C_NULL, h]
  · simp [PETSC_FORTRAN_OBJECT_F_DESTROYED_TO_C_NULL, h]

/-- C15 at concrete slots: a destroyed slot becomes `NULL`, a live slot and a `NULL` slot stay
as they are. -/
theorem F_DESTROYED_TO_C_NULL_effect_witness :
    PETSC_FORTRAN_OBJECT_F_DESTROYED_TO_C_NULL ⟨-2, 3, [4096]⟩ = ⟨0, 3, [4096]⟩ ∧
    PETSC_FORTRAN_OBJECT_F_DESTROYED_TO_C_NULL ⟨4096, 3, []⟩ = ⟨4096, 3, []⟩ ∧
    PETSC_FORTRAN_OBJECT_F_DESTROYED_TO_C_NULL ⟨0, 3, []⟩ = ⟨0, 3, []⟩ :=
  ⟨(F_DESTROYED_TO_C_NULL_effect ⟨-2, 3, [4096]⟩).1 rfl,
   (F_DESTROYED_TO_C_NULL_effect ⟨4096, 3, []⟩).2.1 (by decide),
   (F_DESTROYED_TO_C_NULL_effect ⟨0, 3, []⟩).2.1 (by decide)⟩

theorem nulLoop_bounds (mem : Nat → Nat) (a : Nat) :
    ∀ r i, i ≤ nulLoop mem a i r ∧ nulLoop mem a i r ≤ i + r := by
  intro r
  induction r with
  | zero => intro i; simp [nulLoop]
  | succ r ih =>
    intro i
    unfold nulLoop
    split
    · have := ih (i + 1)
      omega
    · omega

theorem nulLoop_nonzero (mem : Nat → Nat) (a : Nat) :
    ∀ r i j, i ≤ j → j < nulLoop mem a i r → mem (a + j) ≠ 0 := by
  intro r
  induction r with
  | zero =>
    intro i j h1 h2
    simp only [nulLoop] at h2
    omega
  | succ r ih =>
    intro i j h1 h2
    unfold nulLoop at h2
    split at h2
    · rcases Nat.eq_or_lt_of_le h1 with h | h
      · subst h; assumption
      · exact ih (i + 1) j h h2
    · omega

theorem nulLoop_full (mem : Nat → Nat) (a : Nat) :
    ∀ r i, (∀ j, i ≤ j → j < i + r → mem (a + j) ≠ 0) → nulLoop mem a i r = i + r := by
  intro r
  induction r with
  | zero => intro i _; rfl
  | succ r ih =>
    intro i h
    unfold nulLoop
    have hi : mem (a + i) ≠ 0 := h i (Nat.le_refl i) (by omega)
    simp only [hi, ne_eq, not_false_eq_true, if_true]
    rw [ih (i + 1) (fun j h1 h2 => h j (by omega) (by omega))]
    omega

theorem nulLoop_zero (mem : Nat → Nat) (a : Nat) :
    ∀ r i, nulLoop mem a i r < i + r → mem (a + nulLoop mem a i r) = 0 := by
  intro r
  induction r with
  | zero =>
    intro i h
    simp only [nulLoop] at h
    omega
  | succ r ih =>
    intro i h
    unfold nulLoop at h ⊢
    split
    · rename_i hi
      rw [if_pos hi] at h
      exact ih (i + 1) (by omega)
    · rename_i hi
      simpa using hi

theorem FIXRETURNCHAR_apply (mem : Nat → Nat) (a n p : Nat) :
    FIXRETURNCHAR true mem a n p
      = if a + nulLoop mem a 0 n ≤ p ∧ p < a + n then 32 else mem p := by
  have hb := (nulLoop_bounds mem a n 0).2
  simp only [FIXRETURNCHAR, if_true, padLoop_apply]
  have : a + nulLoop mem a 0 n + (n - nulLoop mem a 0 n) = a + n := by omega
  rw [this]

/-- C17: `FIXRETURNCHAR` leaves the stub exactly as it is when the flag is false, and when none
of the first `n` bytes of the buffer is NUL; whatever the flag and the buffer, it leaves `*ierr`,
the capacity `n` and the pointer `a` as they are, and every byte that lies before the first NUL
of the buffer. -/
theorem FIXRETURNCHAR_frame (flg : Bool) (s : ReturnStub) :
    (flg = false → FIXRETURNCHAR_stub flg s = s) ∧
    ((∀ j, j < s.n → s.mem (s.a + j) ≠ 0) → FIXRETURNCHAR_stub flg s = s) ∧
    (FIXRETURNCHAR_stub flg s).ierr = s.ierr ∧ (FIXRETURNCHAR_stub flg s).n = s.n ∧
    (FIXRETURNCHAR_stub flg s).a = s.a ∧
    (∀ j, (∀ i, i ≤ j → s.mem (s.a + i) ≠ 0) →
      (FIXRETURNCHAR_stub flg s).mem (s.a + j) = s.mem (s.a + j)) := by
  refine ⟨?_, ?_, rfl, rfl, rfl, ?_⟩
  · intro h
    subst h
    rfl
  · intro h
    cases flg
    · rfl
    · have hfull : nulLoop s.mem s.a 0 s.n = s.n := by
        have := nulLoop_full s.mem s.a s.n 0 (fun j _ hj => h j (by omega))
        omega
      have hmem : FIXRETURNCHAR true s.mem s.a s.n = s.mem := by
        funext p
        rw [FIXRETURNCHAR_apply, hfull]
        have : ¬ (s.a + s.n ≤ p ∧ p < s.a + s.n) := by omega
        rw [if_neg this]
      simp only [FIXRETURNCHAR_stub, hmem]
  · intro j hj
    cases flg
    · rfl
    · simp only [FIXRETURNCHAR_stub]
      rw [FIXRETURNCHAR_apply]
      have hnot : ¬ (s.a + nulLoop s.mem s.a 0 s.n ≤ s.a + j ∧ s.a + j < s.a + s.n) := by
        intro hc
        have hlt : nulLoop s.mem s.a 0 s.n < s.n := by omega
        have hz : s.mem (s.a + nulLoop s.mem s.a 0 s.n) = 0 :=
          nulLoop_zero s.mem s.a s.n 0 (by omega)
        exact hj (nulLoop s.mem s.a 0 s.n) (by omega) hz
      rw [if_neg hnot]

/-- C17 at concrete stubs: with the flag false, and with the flag set on a buffer of capacity 5
whose first five bytes hold no NUL, the memory is as before; on `"hi"` with terminator the two
bytes before the NUL are as before. -/
theorem FIXRETURNCHAR_frame_witness :
    bytesAt (FIXRETURNCHAR_stub false ⟨100, 5, 3, memOf 100 (asciiBytes "hi" ++ [0, 1, 2])⟩).mem
      100 5 = asciiBytes "hi" ++ [0, 1, 2] ∧
    FIXRETURNCHAR_stub true ⟨100, 5, 3, memOf 100 (asciiBytes "hello!")⟩
      = ⟨100, 5, 3, memOf 100 (asciiBytes "hello!")⟩ ∧
    (FIXRETURNCHAR_stub true ⟨100, 5, 3, memOf 100 (asciiBytes "hi" ++ [0, 1, 2])⟩).mem (100 + 1)
      = 105 :=
  ⟨by rw [(FIXRETURNCHAR_frame false ⟨100, 5, 3, memOf 100 (asciiBytes "hi" ++ [0, 1, 2])⟩).1 rfl]
      decide,
   (FIXRETURNCHAR_frame true ⟨100, 5, 3, memOf 100 (asciiBytes "hello!")⟩).2.1 (by decide),
   (FIXRETURNCHAR_frame true ⟨100, 5, 3, memOf 100 (asciiBytes "hi" ++ [0, 1, 2])⟩).2.2.2.2.2 1
      (by decide)⟩

/-! ## `FIXCHAR`: reads of the scan and size of the request -/

theorem trimLoopReads_mem (mem : Nat → Nat) (a : Nat) :
    ∀ n i, i ∈ trimLoopReads mem a n →
      0 ≤ i ∧ i < (n : Int) ∧ ((trimLoop mem a n : Nat) : Int) - 1 ≤ i := by
  intro n
  induction n with
  | zero => intro i h; simp [trimLoopReads] at h
  | succ k ih =>
    intro i h
    unfold trimLoopReads at h
    unfold trimLoop
    by_cases hb : mem (a + k) = 32
    · rw [if_pos hb] at h ⊢
      rcases List.mem_cons.mp h with h | h
      · have := trimLoop_le mem a k
        subst h
        push_cast
        omega
      · have := ih i h
        push_cast
        omega
    · rw [if_neg hb] at h ⊢
      rcases List.mem_cons.mp h with h | h
      · subst h
        push_cast
        omega
      · simp at h

theorem trimLoopReads_length (mem : Nat → Nat) (a : Nat) :
    ∀ n, (trimLoopReads mem a n).length ≤ n := by
  intro n
  induction n with
  | zero => simp [trimLoopReads]
  | succ k ih =>
    unfold trimLoopReads
    split
    · simp only [List.length_cons]
      omega
    · simp

theorem trimLoop_of_blank (mem : Nat → Nat) (a n : Nat)
    (h : ∀ j, j < n → mem (a + j) = 32) : trimLoop mem a n = 0 := by
  rcases trimLoop_last mem a n with h0 | h1
  · exact h0
  · by_contra hne
    have hle := trimLoop_le mem a n
    exact h1 (h (trimLoop mem a n - 1) (by omega))

theorem strncpyMem_outside (mem : Nat → Nat) (s t n p : Nat) (h : p < s ∨ s + n ≤ p) :
    strncpyMem mem s t n p = mem p := by
  have : ¬ (s ≤ p ∧ p < s + n) := by omega
  simp only [strncpyMem]
  rw [if_neg this]

theorem FIXCHAR_of_success (nullChar : Nat) (r : MallocResult) (s : CharStub)
    (ha : s.a ≠ nullChar) (hr : r.ierr = 0) :
    FIXCHAR nullChar r 0 s
      = Flow.next
          { a := s.a, n := trimLoop s.heap.mem s.a s.n, b := r.ptr, ierr := 0,
            heap := { mem := strncpyMem s.heap.mem r.ptr s.a (trimLoop s.heap.mem s.a s.n + 1),
                      allocs := (r.ptr, trimLoop s.heap.mem s.a s.n + 1) :: s.heap.allocs } } := by
  simp [FIXCHAR, PetscMalloc, PetscStrncpy, ha, hr]

theorem FIXCHAR_of_copy_failure (nullChar : Nat) (r : MallocResult) (cpy : Nat) (s : CharStub)
    (ha : s.a ≠ nullChar) (hr : r.ierr = 0) (hc : cpy ≠ 0) :
    FIXCHAR nullChar r cpy s
      = Flow.ret
          { a := s.a, n := trimLoop s.heap.mem s.a s.n, b := r.ptr, ierr := cpy,
            heap := { mem := s.heap.mem,
                      allocs := (r.ptr, trimLoop s.heap.mem s.a s.n + 1) :: s.heap.allocs } } := by
  simp [FIXCHAR, PetscMalloc, PetscStrncpy, ha, hr, hc]

/-- C18: on a buffer that is not the Character null address, the backward loop of `FIXCHAR`
(a total function of the declared length `n`) makes at most `n` reads, each at an index `i` with
`0 <= i < n` and `m - 1 <= i`, where `m` is the trimmed length, and none when `n = 0`. With the
allocator giving a block, the block requested has exactly `m + 1` bytes, `b` points to it, and the
copy stores nothing outside these `m + 1` bytes. When `n = 0` or the buffer holds blanks only,
`m = 0`: the block has 1 byte, and that byte is the terminator, the empty string. -/
theorem FIXCHAR_scan_and_request (nullChar : Nat) (r : MallocResult) (cpy : Nat) (s : CharStub)
    (ha : s.a ≠ nullChar) (hr : r.ierr = 0) :
    (∀ i, i ∈ trimLoopReads s.heap.mem s.a s.n →
      0 ≤ i ∧ i < (s.n : Int) ∧ ((trimLoop s.heap.mem s.a s.n : Nat) : Int) - 1 ≤ i) ∧
    (trimLoopReads s.heap.mem s.a s.n).length ≤ s.n ∧
    (s.n = 0 → trimLoopReads s.heap.mem s.a s.n = []) ∧
    (FIXCHAR nullChar r cpy s).state.heap.allocs
      = (r.ptr, trimLoop s.heap.mem s.a s.n + 1) :: s.heap.allocs ∧
    (FIXCHAR nullChar r cpy s).state.b = r.ptr ∧
    (FIXCHAR nullChar r cpy s).state.n = trimLoop s.heap.mem s.a s.n ∧
    (∀ p, p < r.ptr ∨ r.ptr + (trimLoop s.heap.mem s.a s.n + 1) ≤ p →
      (FIXCHAR nullChar r cpy s).state.heap.mem p = s.heap.mem p) ∧
    ((∀ j, j < s.n → s.heap.mem (s.a + j) = 32) →
      trimLoop s.heap.mem s.a s.n = 0 ∧
      (FIXCHAR nullChar r 0 s).returned = false ∧
      (FIXCHAR nullChar r 0 s).state.heap.allocs = (r.ptr, 1) :: s.heap.allocs ∧
      bytesAt (FIXCHAR nullChar r 0 s).state.heap.mem (FIXCHAR nullChar r 0 s).state.b 1
        = [0]) := by
  refine ⟨fun i hi => trimLoopReads_mem _ _ _ i hi, trimLoopReads_length _ _ _, ?_, ?_⟩
  · intro h0
    rw [h0]
    rfl
  · have hblank : (∀ j, j < s.n → s.heap.mem (s.a + j) = 32) →
        trimLoop s.heap.mem s.a s.n = 0 ∧
        (FIXCHAR nullChar r 0 s).returned = false ∧
        (FIXCHAR nullChar r 0 s).state.heap.allocs = (r.ptr, 1) :: s.heap.allocs ∧
        bytesAt (FIXCHAR nullChar r 0 s).state.heap.mem (FIXCHAR nullChar r 0 s).state.b 1
          = [0] := by
      intro hb
      have hm := trimLoop_of_blank _ _ _ hb
      rw [FIXCHAR_of_success nullChar r s ha hr, hm]
      refine ⟨rfl, rfl, rfl, ?_⟩
      have hone : ∀ (m : Nat → Nat) (q : Nat), bytesAt m q 1 = [m (q + 0)] := fun _ _ => rfl
      simp [Flow.state, hone, strncpyMem]
    have hgen : (FIXCHAR nullChar r cpy s).state.heap.allocs
          = (r.ptr, trimLoop s.heap.mem s.a s.n + 1) :: s.heap.allocs ∧
        (FIXCHAR nullChar r cpy s).state.b = r.ptr ∧
        (FIXCHAR nullChar r cpy s).state.n = trimLoop s.heap.mem s.a s.n ∧
        (∀ p, p < r.ptr ∨ r.ptr + (trimLoop s.heap.mem s.a s.n + 1) ≤ p →
          (FIXCHAR nullChar r cpy s).state.heap.mem p = s.heap.mem p) := by
      by_cases hc : cpy = 0
      · subst hc
        rw [FIXCHAR_of_success nullChar r s ha hr]
        exact ⟨rfl, rfl, rfl, fun p hp => strncpyMem_outside _ _ _ _ p hp⟩
      · rw [FIXCHAR_of_copy_failure nullChar r cpy s ha hr hc]
        exact ⟨rfl, rfl, rfl, fun _ _ => rfl⟩
    exact ⟨hgen.1, hgen.2.1, hgen.2.2.1, hgen.2.2.2, hblank⟩

/-- C18 at concrete buffers: on `"hi  "` with declared length 4 the loop reads the indices 3, 2
and 1 and 3 bytes are requested; with declared length 0 it reads nothing, and on four blanks it
reads 3, 2, 1 and 0; in both of these 1 byte is requested and it holds the terminator. -/
theorem FIXCHAR_scan_and_request_witness :
    trimLoopReads (memOf 100 (asciiBytes "hi  ")) 100 4 = [3, 2, 1] ∧
    (FIXCHAR 7 ⟨0, 500⟩ 0 (charStubOf 100 (asciiBytes "hi  ") 4)).state.heap.allocs
      = [(500, 3)] ∧
    trimLoopReads (memOf 100 (asciiBytes "hi  ")) 100 0 = [] ∧
    trimLoopReads (memOf 100 (asciiBytes "    ")) 100 4 = [3, 2, 1, 0] ∧
    (FIXCHAR 7 ⟨0, 500⟩ 0 (charStubOf 100 (asciiBytes "    ") 4)).state.heap.allocs
      = [(500, 1)] ∧
    bytesAt (FIXCHAR 7 ⟨0, 500⟩ 0 (charStubOf 100 (asciiBytes "    ") 4)).state.heap.mem
      (FIXCHAR 7 ⟨0, 500⟩ 0 (charStubOf 100 (asciiBytes "    ") 4)).state.b 1 = [0] :=
  have h1 := FIXCHAR_scan_and_request 7 ⟨0, 500⟩ 0 (charStubOf 100 (asciiBytes "hi  ") 4)
    (by decide) rfl
  have h2 := (FIXCHAR_scan_and_request 7 ⟨0, 500⟩ 0 (charStubOf 100 (asciiBytes "    ") 4)
    (by decide) rfl).2.2.2.2.2.2.2 (by decide)
  ⟨by decide, h1.2.2.2.1, by decide, by decide, h2.2.2.1, h2.2.2.2⟩

/-! ## The exclusion lists of the checks -/

theorem Check_run_eq_tested (G : FortranNulls) (load : Nat → Nat) (k : Check) (s : ArgStub) :
    Check.run G load k s
      = if k.tested.any (fun c => isNullOf G load c s.a) then chkFail k.message s
        else if isNullOf G load k.own s.a then Flow.next { s with a := 0 }
        else Flow.next s := by
  cases k <;>
    simp [Check.run, Check.tested, Check.own, Check.message, isNullOf, CHKFORTRANNULLINTEGER,
      CHKFORTRANNULLSCALAR, CHKFORTRANNULLDOUBLE, CHKFORTRANNULLREAL, CHKFORTRANNULLOBJECT,
      CHKFORTRANNULLBOOL, CHKFORTRANNULLFUNCTION, FORTRANNULLOBJECT, Bool.or_assoc]

/-- C19: the first condition of every check is the disjunction of the tests of its list
`Check.tested`, written as in the header. One check, `CHKFORTRANNULLBOOL`, and only that one,
lists a category twice (Scalar), and it lists Object, which is not its own category, nowhere;
`CHKFORTRANNULLFUNCTION` does list Object. So the checks do not reject the same foreign null
values: the address of a slot that holds `NULL` is rejected by `CHKFORTRANNULLFUNCTION` and passes
`CHKFORTRANNULLBOOL`. -/
theorem Check_lists_inconsistent :
    (∀ (G : FortranNulls) (load : Nat → Nat) (k : Check) (s : ArgStub),
      Check.run G load k s
        = if k.tested.any (fun c => isNullOf G load c s.a) then chkFail k.message s
          else if isNullOf G load k.own s.a then Flow.next { s with a := 0 }
          else Flow.next s) ∧
    (∃ k c c', (Check.tested k).count c = 2 ∧ c' ≠ Check.own k ∧ c' ∉ Check.tested k) ∧
    ((Check.tested Check.BOOL).count Category.Scalar = 2 ∧
      Category.Object ≠ Check.own Check.BOOL ∧ Category.Object ∉ Check.tested Check.BOOL) ∧
    (∀ k c, 2 ≤ (Check.tested k).count c ↔ (k = Check.BOOL ∧ c = Category.Scalar)) ∧
    (Category.Object ≠ Check.own Check.FUNCTION ∧
      Category.Object ∈ Check.tested Check.FUNCTION) ∧
    (isNullOf exampleNulls exampleLoad Category.Object 200 = true ∧
      Check.run exampleNulls exampleLoad Check.FUNCTION ⟨200, 0, []⟩
        = Flow.ret ⟨200, 1, ["Use PETSC_NULL_FUNCTION"]⟩ ∧
      Check.run exampleNulls exampleLoad Check.BOOL ⟨200, 0, []⟩ = Flow.next ⟨200, 0, []⟩) := by
  refine ⟨Check_run_eq_tested, ⟨Check.BOOL, Category.Scalar, Category.Object, ?_⟩, ?_, ?_, ?_, ?_⟩
  · decide
  · decide
  · intro k c
    cases k <;> cases c <;> decide
  · decide
  · decide

/-! ## Round trip through `FIXRETURNCHAR` and `FIXCHAR` -/

theorem bytesAt_getElem (mem : Nat → Nat) (a : Nat) (str : List Nat)
    (h : bytesAt mem a str.length = str) (i : Nat) (hi : i < str.length) :
    mem (a + i) = str[i] := by
  have h1 : (bytesAt mem a str.length)[i]? = str[i]? := by rw [h]
  simpa [bytesAt, hi] using h1

theorem bytesAt_congr (mem mem' : Nat → Nat) (a len : Nat)
    (h : ∀ i, i < len → mem' (a + i) = mem (a + i)) : bytesAt mem' a len = bytesAt mem a len := by
  apply List.ext_getElem
  · simp [bytesAt]
  · intro i h1 _
    have hi : i < len := by simpa [bytesAt] using h1
    simp [bytesAt, h i hi]

theorem trimLoop_eq_of_padded (mem : Nat → Nat) (a n len : Nat) (hlen : len ≤ n)
    (hpad : ∀ j, len ≤ j → j < n → mem (a + j) = 32)
    (hend : len = 0 ∨ mem (a + (len - 1)) ≠ 32) : trimLoop mem a n = len := by
  apply Nat.le_antisymm
  · by_contra hgt
    have hle := trimLoop_le mem a n
    rcases trimLoop_last mem a n with h0 | h1
    · omega
    · exact h1 (hpad (trimLoop mem a n - 1) (by omega) (by omega))
  · exact trimLoop_greatest mem a n len hlen hend

/-- C20: let the string `str`, without NUL, of length at most `n` and not ending in a blank,
stand at the start of the buffer `a` of capacity `n`, followed by the terminator when its length
is less than `n`. After `FIXRETURNCHAR` with the flag set, `FIXCHAR` with declared length `n`
(the buffer not being the Character null address, allocation and copy succeeding) goes on with
`b` holding `str` followed by the terminator; and `FIXRETURNCHAR` run once more on the padded
buffer leaves the memory as it is. -/
theorem FIXRETURNCHAR_FIXCHAR_roundtrip (nullChar : Nat) (r : MallocResult)
    (mem : Nat → Nat) (a n b ierr : Nat) (allocs : List (Nat × Nat)) (str : List Nat)
    (hlen : str.length ≤ n) (hnul : 0 ∉ str) (hend : str.getLast? ≠ some 32)
    (hbuf : bytesAt mem a str.length = str) (hterm : str.length < n → mem (a + str.length) = 0)
    (ha : a ≠ nullChar) (hr : r.ierr = 0) :
    (∃ s', FIXCHAR nullChar r 0
        { a := a, n := n, b := b, ierr := ierr,
          heap := { mem := FIXRETURNCHAR true mem a n, allocs := allocs } } = Flow.next s' ∧
      bytesAt s'.heap.mem s'.b (str.length + 1) = str ++ [0]) ∧
    FIXRETURNCHAR true (FIXRETURNCHAR true mem a n) a n = FIXRETURNCHAR true mem a n := by
  have hget : ∀ i (hi : i < str.length), mem (a + i) = str[i] :=
    fun i hi => bytesAt_getElem mem a str hbuf i hi
  have hnz : ∀ i, i < str.length → mem (a + i) ≠ 0 := by
    intro i hi h0
    apply hnul
    rw [← h0, hget i hi]
    exact List.getElem_mem _
  -- the first loop of `FIXRETURNCHAR` stops at the length of the string
  have hloop : nulLoop mem a 0 n = str.length := by
    rcases Nat.lt_or_ge str.length n with hlt | hge
    · exact nulLoop_eq mem a str.length (hterm hlt) n 0 (Nat.zero_le _) (by omega)
        (fun j _ hj => hnz j hj)
    · have hn : n = str.length := by omega
      have := nulLoop_full mem a n 0 (fun j _ hj => hnz j (by omega))
      omega
  have hpadded : ∀ p, FIXRETURNCHAR true mem a n p
      = if a + str.length ≤ p ∧ p < a + n then 32 else mem p := by
    intro p
    rw [FIXRETURNCHAR_apply, hloop]
  have hkeep : ∀ i, i < str.length → FIXRETURNCHAR true mem a n (a + i) = mem (a + i) := by
    intro i hi
    rw [hpadded]
    have : ¬ (a + str.length ≤ a + i ∧ a + i < a + n) := by omega
    rw [if_neg this]
  have hblank : ∀ j, str.length ≤ j → j < n → FIXRETURNCHAR true mem a n (a + j) = 32 := by
    intro j h1 h2
    rw [hpadded]
    have : a + str.length ≤ a + j ∧ a + j < a + n := by omega
    rw [if_pos this]
  have hlast : str.length = 0 ∨ FIXRETURNCHAR true mem a n (a + (str.length - 1)) ≠ 32 := by
    rcases Nat.eq_zero_or_pos str.length with h0 | hpos
    · exact Or.inl h0
    · right
      rw [hkeep _ (by omega), hget _ (by omega)]
      intro h32
      apply hend
      rw [List.getLast?_eq_getElem?, List.getElem?_eq_getElem (by omega), h32]
  have htrim : trimLoop (FIXRETURNCHAR true mem a n) a n = str.length :=
    trimLoop_eq_of_padded _ a n str.length hlen hblank hlast
  refine ⟨⟨_, FIXCHAR_of_success nullChar r _ ha hr, ?_⟩, ?_⟩
  · simp only [htrim]
    rw [bytesAt_strncpyMem _ _ _ _ (fun i hi => by rw [hkeep i hi]; exact hnz i hi),
      bytesAt_congr _ _ _ _ hkeep, hbuf]
  · funext p
    have hfull : nulLoop (FIXRETURNCHAR true mem a n) a 0 n = n := by
      have := nulLoop_full (FIXRETURNCHAR true mem a n) a n 0 (fun j _ hj => by
        rcases Nat.lt_or_ge j str.length with h | h
        · rw [hkeep j h]; exact hnz j h
        · rw [hblank j h (by omega)]; decide)
      omega
    rw [FIXRETURNCHAR_apply (FIXRETURNCHAR true mem a n), hfull]
    have : ¬ (a + n ≤ p ∧ p < a + n) := by omega
    rw [if_neg this]

/-- C20 at concrete strings: `"hi"` written with its terminator into a buffer of capacity 5, and
`"hello"` filling a buffer of capacity 5 with no room for a terminator. -/
theorem FIXRETURNCHAR_FIXCHAR_roundtrip_witness :
    (∃ s', FIXCHAR 7 ⟨0, 500⟩ 0
        { a := 100, n := 5, b := 0, ierr := 0,
          heap := { mem := FIXRETURNCHAR true (memOf 100 (asciiBytes "hi" ++ [0, 1, 2])) 100 5,
                    allocs := [] } } = Flow.next s' ∧
      bytesAt s'.heap.mem s'.b 3 = asciiBytes "hi" ++ [0]) ∧
    (∃ s', FIXCHAR 7 ⟨0, 500⟩ 0
        { a := 100, n := 5, b := 0, ierr := 0,
          heap := { mem := FIXRETURNCHAR true (memOf 100 (asciiBytes "hello" ++ [1, 2])) 100 5,
                    allocs := [] } } = Flow.next s' ∧
      bytesAt s'.heap.mem s'.b 6 = asciiBytes "hello" ++ [0]) ∧
    bytesAt (FIXRETURNCHAR true
      (FIXRETURNCHAR true (memOf 100 (asciiBytes "hi" ++ [0, 1, 2])) 100 5) 100 5) 100 5
      = asciiBytes "hi   " :=
  ⟨(FIXRETURNCHAR_FIXCHAR_roundtrip 7 ⟨0, 500⟩ (memOf 100 (asciiBytes "hi" ++ [0, 1, 2]))
      100 5 0 0 [] (asciiBytes "hi") (by decide) (by decide) (by decide) (by decide)
      (fun _ => by decide) (by decide) rfl).1,
   (FIXRETURNCHAR_FIXCHAR_roundtrip 7 ⟨0, 500⟩ (memOf 100 (asciiBytes "hello" ++ [1, 2]))
      100 5 0 0 [] (asciiBytes "hello") (by decide) (by decide) (by decide) (by decide)
      (fun h => absurd h (by decide)) (by decide) rfl).1,
   by
    rw [(FIXRETURNCHAR_FIXCHAR_roundtrip 7 ⟨0, 500⟩ (memOf 100 (asciiBytes "hi" ++ [0, 1, 2]))
      100 5 0 0 [] (asciiBytes "hi") (by decide) (by decide) (by decide) (by decide)
      (fun _ => by decide) (by decide) rfl).2]
    decide⟩

end FortranImpl
